import Mathlib

/-!
Verification of the grid-movement subsystem (dual-grid primitives, volumetric mesh
movement, surface movement, free-form-deformation boxes) against its specification.

The C++ sources are embedded shallowly over `ℚ`: `double` arithmetic becomes exact
rational arithmetic, fixed-size corner arrays become functions out of `ℕ`, and
the mesh/config containers become explicit structures.  Calls to `sqrt`, `sin` and
`cos` (transcendental over `ℚ`) are passed in as explicit value parameters at the
call sites that need them; `fabs` is `abs`; `pow` with an integral exponent is `^`.
-/

/-- A 2D coordinate (a `double[2]` in the source). -/
structure Vec2 where
  x : ℚ
  y : ℚ
  deriving DecidableEq

/-- A 3D coordinate (a `double[3]` in the source). -/
structure Vec3 where
  x : ℚ
  y : ℚ
  z : ℚ
  deriving DecidableEq

/-- Modelled from the spec: `EPS`, the shared small numerical-tolerance constant used
throughout the subsystem.  It is defined in the suite option header, which is not part
of this source set; the spec describes it as "a shared small numerical-tolerance
constant", and `Check_Grid` flags an element invalid when its measure is below `-EPS`. -/
def EPS : ℚ := 1 / 10 ^ 16

/-- `CVolumetricMovement::GetTriangle_Area` (grid_movement_structure.cpp:989):
`Area = 0.5*fabs(a[0]*b[1]-a[1]*b[0])` with `a = Coord_0 - Coord_2`,
`b = Coord_1 - Coord_2`.  Note the `fabs`: the result is an unsigned area. -/
def GetTriangle_Area (c : ℕ → Vec2) : ℚ :=
  let C0 := c 0
  let C1 := c 1
  let C2 := c 2
  (1/2) * |(C0.x - C2.x) * (C1.y - C2.y) - (C0.y - C2.y) * (C1.x - C2.x)|

/-- `CVolumetricMovement::GetRectangle_Area` (grid_movement_structure.cpp:1010):
the sum of the unsigned areas of the corner triangles (0,1,2) and (0,2,3). -/
def GetRectangle_Area (c : ℕ → Vec2) : ℚ :=
  let C0 := c 0
  let C1 := c 1
  let C2 := c 2
  let C3 := c 3
  (1/2) * |(C0.x - C2.x) * (C1.y - C2.y) - (C0.y - C2.y) * (C1.x - C2.x)| +
  (1/2) * |(C0.x - C3.x) * (C2.y - C3.y) - (C0.y - C3.y) * (C2.x - C3.x)|

/-- The repeated sub-volume block of the 3D measure routines: the scalar triple
product of the three edge vectors out of `c0`, divided by 6 (a signed volume). -/
def subTetraVol (c0 c1 c2 c3 : Vec3) : ℚ :=
  let r1x := c1.x - c0.x
  let r1y := c1.y - c0.y
  let r1z := c1.z - c0.z
  let r2x := c2.x - c0.x
  let r2y := c2.y - c0.y
  let r2z := c2.z - c0.z
  let r3x := c3.x - c0.x
  let r3y := c3.y - c0.y
  let r3z := c3.z - c0.z
  ((r1y * r2z - r1z * r2y) * r3x + (r1z * r2x - r1x * r2z) * r3y +
   (r1x * r2y - r1y * r2x) * r3z) / 6

/-- `CVolumetricMovement::GetTetra_Volume` (grid_movement_structure.cpp:1042). -/
def GetTetra_Volume (c : ℕ → Vec3) : ℚ :=
  subTetraVol (c 0) (c 1) (c 2) (c 3)

/-- `CVolumetricMovement::GetPyram_Volume` (grid_movement_structure.cpp:1069):
two tetrahedral sub-volumes (0,1,2,4) and (0,2,3,4). -/
def GetPyram_Volume (c : ℕ → Vec3) : ℚ :=
  subTetraVol (c 0) (c 1) (c 2) (c 4) + subTetraVol (c 0) (c 2) (c 3) (c 4)

/-- `CVolumetricMovement::GetWedge_Volume` (grid_movement_structure.cpp:1113):
three tetrahedral sub-volumes (0,2,1,5), (0,5,1,4), (0,5,4,3). -/
def GetWedge_Volume (c : ℕ → Vec3) : ℚ :=
  subTetraVol (c 0) (c 2) (c 1) (c 5) + subTetraVol (c 0) (c 5) (c 1) (c 4) +
  subTetraVol (c 0) (c 5) (c 4) (c 3)

/-- `CVolumetricMovement::GetHexa_Volume` (grid_movement_structure.cpp:1174):
five tetrahedral sub-volumes (0,1,2,5), (0,2,7,5), (0,2,3,7), (0,5,7,4), (2,7,5,6). -/
def GetHexa_Volume (c : ℕ → Vec3) : ℚ :=
  subTetraVol (c 0) (c 1) (c 2) (c 5) + subTetraVol (c 0) (c 2) (c 7) (c 5) +
  subTetraVol (c 0) (c 2) (c 3) (c 7) + subTetraVol (c 0) (c 5) (c 7) (c 4) +
  subTetraVol (c 2) (c 7) (c 5) (c 6)

/-- A 2D primal element as `Check_Grid` sees it: its VTK type and corner node ids. -/
inductive Elem2 where
  | triangle (n0 n1 n2 : ℕ)
  | rectangle (n0 n1 n2 n3 : ℕ)
  deriving DecidableEq

/-- A 3D primal element as `Check_Grid` sees it. -/
inductive Elem3 where
  | tetra (n0 n1 n2 n3 : ℕ)
  | pyramid (n0 n1 n2 n3 n4 : ℕ)
  | wedge (n0 n1 n2 n3 n4 n5 : ℕ)
  | hexa (n0 n1 n2 n3 n4 n5 n6 n7 : ℕ)
  deriving DecidableEq

/-- A 2D mesh: node coordinates and the element list (the geometry container
contract used by `Check_Grid`). -/
structure Mesh2 where
  coord : ℕ → Vec2
  elems : List Elem2

/-- A 3D mesh: node coordinates and the element list. -/
structure Mesh3 where
  coord : ℕ → Vec3
  elems : List Elem3

/-- The `CoordCorners` array loaded for a 2D element (unused slots hold a filler,
as they are stale in the source and never read by the measure routines). -/
def corners2 (m : Mesh2) (e : Elem2) : ℕ → Vec2 :=
  match e with
  | .triangle n0 n1 n2 => fun i =>
      match i with
      | 0 => m.coord n0 | 1 => m.coord n1 | 2 => m.coord n2 | _ => ⟨0, 0⟩
  | .rectangle n0 n1 n2 n3 => fun i =>
      match i with
      | 0 => m.coord n0 | 1 => m.coord n1 | 2 => m.coord n2 | 3 => m.coord n3
      | _ => ⟨0, 0⟩

/-- The `CoordCorners` array loaded for a 3D element. -/
def corners3 (m : Mesh3) (e : Elem3) : ℕ → Vec3 :=
  match e with
  | .tetra n0 n1 n2 n3 => fun i =>
      match i with
      | 0 => m.coord n0 | 1 => m.coord n1 | 2 => m.coord n2 | 3 => m.coord n3
      | _ => ⟨0, 0, 0⟩
  | .pyramid n0 n1 n2 n3 n4 => fun i =>
      match i with
      | 0 => m.coord n0 | 1 => m.coord n1 | 2 => m.coord n2 | 3 => m.coord n3
      | 4 => m.coord n4 | _ => ⟨0, 0, 0⟩
  | .wedge n0 n1 n2 n3 n4 n5 => fun i =>
      match i with
      | 0 => m.coord n0 | 1 => m.coord n1 | 2 => m.coord n2 | 3 => m.coord n3
      | 4 => m.coord n4 | 5 => m.coord n5 | _ => ⟨0, 0, 0⟩
  | .hexa n0 n1 n2 n3 n4 n5 n6 n7 => fun i =>
      match i with
      | 0 => m.coord n0 | 1 => m.coord n1 | 2 => m.coord n2 | 3 => m.coord n3
      | 4 => m.coord n4 | 5 => m.coord n5 | 6 => m.coord n6 | 7 => m.coord n7
      | _ => ⟨0, 0, 0⟩

/-- The per-element measure computed by `Check_Grid` in 2D (`Area`). -/
def elemArea (m : Mesh2) (e : Elem2) : ℚ :=
  match e with
  | .triangle _ _ _ => GetTriangle_Area (corners2 m e)
  | .rectangle _ _ _ _ => GetRectangle_Area (corners2 m e)

/-- The per-element measure computed by `Check_Grid` in 3D (`Volume`). -/
def elemVolume (m : Mesh3) (e : Elem3) : ℚ :=
  match e with
  | .tetra _ _ _ _ => GetTetra_Volume (corners3 m e)
  | .pyramid _ _ _ _ _ => GetPyram_Volume (corners3 m e)
  | .wedge _ _ _ _ _ _ => GetWedge_Volume (corners3 m e)
  | .hexa _ _ _ _ _ _ _ _ => GetHexa_Volume (corners3 m e)

/-- The invalid-element count of the `Check_Grid` element loop, 2D branch, written
as the loop accumulates it: `ElemCounter` is incremented when `¬ (Area ≥ -EPS)`. -/
def countNeg2D (m : Mesh2) : List Elem2 → ℕ → ℕ
  | [], cnt => cnt
  | e :: l, cnt => countNeg2D m l (if elemArea m e < -EPS then cnt + 1 else cnt)

/-- The invalid-element count of the `Check_Grid` element loop, 3D branch. -/
def countNeg3D (m : Mesh3) : List Elem3 → ℕ → ℕ
  | [], cnt => cnt
  | e :: l, cnt => countNeg3D m l (if elemVolume m e < -EPS then cnt + 1 else cnt)

/-- `CVolumetricMovement::Check_Grid` (grid_movement_structure.cpp:209), 2D branch,
invalid-element counter (`ElemCounter`), starting from 0. -/
def Check_Grid2D_ElemCounter (m : Mesh2) : ℕ :=
  countNeg2D m m.elems 0

/-- `Check_Grid` 2D branch, returned value: `MinArea`, the running minimum of the
element areas starting from `1E22`. -/
def Check_Grid2D_MinArea (m : Mesh2) : ℚ :=
  m.elems.foldl (fun acc e => min acc (elemArea m e)) (10 ^ 22)

/-- `Check_Grid` 3D branch, invalid-element counter (`ElemCounter`). -/
def Check_Grid3D_ElemCounter (m : Mesh3) : ℕ :=
  countNeg3D m m.elems 0

/-- `Check_Grid` 3D branch, returned value: `MinVolume`, starting from `1E22`. -/
def Check_Grid3D_MinVolume (m : Mesh3) : ℚ :=
  m.elems.foldl (fun acc e => min acc (elemVolume m e)) (10 ^ 22)

/-- The corners of the unit cube in the standard hexahedron corner order. -/
def unitHexaCorners : ℕ → Vec3 := fun i =>
  match i with
  | 0 => ⟨0, 0, 0⟩ | 1 => ⟨1, 0, 0⟩ | 2 => ⟨1, 1, 0⟩ | 3 => ⟨0, 1, 0⟩
  | 4 => ⟨0, 0, 1⟩ | 5 => ⟨1, 0, 1⟩ | 6 => ⟨1, 1, 1⟩ | 7 => ⟨0, 1, 1⟩
  | _ => ⟨0, 0, 0⟩

/-- The corners of a right tetrahedron with unit legs. -/
def rightTetraCorners : ℕ → Vec3 := fun i =>
  match i with
  | 0 => ⟨0, 0, 0⟩ | 1 => ⟨1, 0, 0⟩ | 2 => ⟨0, 1, 0⟩ | 3 => ⟨0, 0, 1⟩
  | _ => ⟨0, 0, 0⟩

/-- The corners of the unit square in 2D. -/
def unitSquareCorners : ℕ → Vec2 := fun i =>
  match i with
  | 0 => ⟨0, 0⟩ | 1 => ⟨1, 0⟩ | 2 => ⟨1, 1⟩ | 3 => ⟨0, 1⟩
  | _ => ⟨0, 0⟩

/-- C7: on the reference elements the measure routines return the exact analytic
values: `GetHexa_Volume` of the unit cube is 1, `GetTetra_Volume` of the right unit
tetrahedron is 1/6, `GetRectangle_Area` of the unit square is 1. -/
theorem C7_reference_element_measures :
    GetHexa_Volume unitHexaCorners = 1 ∧
    GetTetra_Volume rightTetraCorners = 1/6 ∧
    GetRectangle_Area unitSquareCorners = 1 := by
  refine ⟨?_, ?_, ?_⟩ <;>
    norm_num [GetHexa_Volume, GetTetra_Volume, GetRectangle_Area, subTetraVol,
      unitHexaCorners, rightTetraCorners, unitSquareCorners]

theorem countNeg2D_eq_countP (m : Mesh2) :
    ∀ (l : List Elem2) (n : ℕ),
      countNeg2D m l n = n + l.countP (fun e => decide (elemArea m e < -EPS)) := by
  intro l
  induction l with
  | nil => intro n; simp [countNeg2D]
  | cons e l ih =>
      intro n
      rw [countNeg2D, ih, List.countP_cons]
      by_cases h : elemArea m e < -EPS <;> simp [h] 
      omega

theorem countNeg3D_eq_countP (m : Mesh3) :
    ∀ (l : List Elem3) (n : ℕ),
      countNeg3D m l n = n + l.countP (fun e => decide (elemVolume m e < -EPS)) := by
  intro l
  induction l with
  | nil => intro n; simp [countNeg3D]
  | cons e l ih =>
      intro n
      rw [countNeg3D, ih, List.countP_cons]
      by_cases h : elemVolume m e < -EPS <;> simp [h] 
      omega

theorem foldl_min_le_init {α : Type} (f : α → ℚ) :
    ∀ (l : List α) (init : ℚ), l.foldl (fun acc e => min acc (f e)) init ≤ init := by
  intro l
  induction l with
  | nil => intro init; simp
  | cons a t ih =>
      intro init
      calc (a :: t).foldl (fun acc e => min acc (f e)) init
          = t.foldl (fun acc e => min acc (f e)) (min init (f a)) := rfl
        _ ≤ min init (f a) := ih _
        _ ≤ init := min_le_left _ _

theorem foldl_min_le_mem {α : Type} (f : α → ℚ) :
    ∀ (l : List α) (init : ℚ) (x : α), x ∈ l →
      l.foldl (fun acc e => min acc (f e)) init ≤ f x := by
  intro l
  induction l with
  | nil => intro _ x hx; exact absurd hx (List.not_mem_nil x)
  | cons a t ih =>
      intro init x hx
      rcases List.mem_cons.mp hx with h | h
      · subst h
        calc (x :: t).foldl (fun acc e => min acc (f e)) init
            = t.foldl (fun acc e => min acc (f e)) (min init (f x)) := rfl
          _ ≤ min init (f x) := foldl_min_le_init f t _
          _ ≤ f x := min_le_right _ _
      · exact ih (min init (f a)) x h

/-- Swapping the first two corners fed to the tetrahedral sub-volume block negates
the scalar triple product. -/
theorem subTetraVol_swap01 (p q r s : Vec3) : subTetraVol q p r s = -subTetraVol p q r s := by
  simp only [subTetraVol]
  ring

/-- The element measures depend on the mesh only through its coordinate map. -/
theorem elemVolume_congr (c : ℕ → Vec3) (l1 l2 : List Elem3) (e : Elem3) :
    elemVolume ⟨c, l1⟩ e = elemVolume ⟨c, l2⟩ e := by
  cases e <;> rfl

/-- The signed volume `Check_Grid` computes for a tetrahedron, in terms of its
corner coordinates. -/
theorem elemVolume_tetra (m : Mesh3) (a b c d : ℕ) :
    elemVolume m (.tetra a b c d) =
      subTetraVol (m.coord a) (m.coord b) (m.coord c) (m.coord d) := rfl

/-- A one-triangle 2D mesh whose single element has had its first two corner node
ids swapped (the counterclockwise triangle (0,0),(1,0),(0,1) listed as 1,0,2). -/
def invertedTriMesh : Mesh2 :=
  { coord := fun n => match n with | 0 => ⟨0, 0⟩ | 1 => ⟨1, 0⟩ | _ => ⟨0, 1⟩
    elems := [Elem2.triangle 1 0 2] }

/-- C1, counterexample: on a 2D mesh whose one triangle has two corner ids swapped,
`Check_Grid` reports zero (not one) invalid elements and returns the positive
minimum 1/2 (not a negative measure), because `GetTriangle_Area` takes an absolute
value and is not signed. -/
theorem C1_counterexample :
    Check_Grid2D_ElemCounter invertedTriMesh = 0 ∧
    Check_Grid2D_MinArea invertedTriMesh = 1/2 ∧
    ¬ (Check_Grid2D_ElemCounter invertedTriMesh = 1 ∧
       Check_Grid2D_MinArea invertedTriMesh < 0) := by
  have harea : elemArea invertedTriMesh (Elem2.triangle 1 0 2) = 1/2 := by
    norm_num [elemArea, GetTriangle_Area, corners2, invertedTriMesh]
  have hnot : ¬ (elemArea invertedTriMesh (Elem2.triangle 1 0 2) < -EPS) := by
    rw [harea]
    norm_num [EPS]
  have h1 : Check_Grid2D_ElemCounter invertedTriMesh = 0 := by
    simp only [Check_Grid2D_ElemCounter]
    rw [show invertedTriMesh.elems = [Elem2.triangle 1 0 2] from rfl]
    rw [countNeg2D, if_neg hnot, countNeg2D]
  have h2 : Check_Grid2D_MinArea invertedTriMesh = 1/2 := by
    simp only [Check_Grid2D_MinArea]
    rw [show invertedTriMesh.elems = [Elem2.triangle 1 0 2] from rfl]
    simp only [List.foldl]
    rw [harea]
    norm_num
  refine ⟨h1, h2, ?_⟩
  rintro ⟨hc, -⟩
  rw [h1] at hc
  exact absurd hc (by norm_num)

theorem EPS_pos : (0 : ℚ) < EPS := by norm_num [EPS]

/-- The 2D measures are absolute values, hence nonnegative for every element. -/
theorem elemArea_nonneg (m : Mesh2) (e : Elem2) : 0 ≤ elemArea m e := by
  cases e <;> simp only [elemArea, GetTriangle_Area, GetRectangle_Area] <;> positivity

/-- C1, amended: in 3D, inverting exactly one tetrahedral element of a mesh of
positive-measure elements by swapping two of its corner node ids negates that
signed volume, and `Check_Grid` then reports exactly one invalid element and a
negative minimum measure (zero invalid elements without the swap); in 2D the
measures used by `Check_Grid` are unsigned absolute areas, so the invalid-element
count is zero for every 2D mesh and a corner swap is never detected. -/
theorem C1_amended (c : ℕ → Vec3) (pre suf : List Elem3) (n0 n1 n2 n3 : ℕ)
    (m mInv : Mesh3)
    (hm : m = ⟨c, pre ++ Elem3.tetra n0 n1 n2 n3 :: suf⟩)
    (hmInv : mInv = ⟨c, pre ++ Elem3.tetra n1 n0 n2 n3 :: suf⟩)
    (hpos : ∀ e ∈ m.elems, EPS < elemVolume m e) :
    Check_Grid3D_ElemCounter m = 0 ∧
    Check_Grid3D_ElemCounter mInv = 1 ∧
    Check_Grid3D_MinVolume mInv < 0 ∧
    elemVolume mInv (Elem3.tetra n1 n0 n2 n3) =
      - elemVolume m (Elem3.tetra n0 n1 n2 n3) ∧
    (∀ m2 : Mesh2, Check_Grid2D_ElemCounter m2 = 0) := by
  subst hm
  subst hmInv
  have hneg : elemVolume ⟨c, pre ++ Elem3.tetra n1 n0 n2 n3 :: suf⟩ (Elem3.tetra n1 n0 n2 n3)
      = - elemVolume ⟨c, pre ++ Elem3.tetra n0 n1 n2 n3 :: suf⟩ (Elem3.tetra n0 n1 n2 n3) := by
    rw [elemVolume_tetra, elemVolume_tetra]
    exact subTetraVol_swap01 _ _ _ _
  have hv : EPS < elemVolume ⟨c, pre ++ Elem3.tetra n0 n1 n2 n3 :: suf⟩
      (Elem3.tetra n0 n1 n2 n3) :=
    hpos _ (List.mem_append_right _ (List.mem_cons_self _ _))
  refine ⟨?_, ?_, ?_, hneg, ?_⟩
  · rw [Check_Grid3D_ElemCounter, countNeg3D_eq_countP, Nat.zero_add,
      List.countP_eq_zero]
    intro e he
    simp only [decide_eq_true_eq, not_lt]
    have := hpos e he
    linarith [EPS_pos]
  · rw [Check_Grid3D_ElemCounter, countNeg3D_eq_countP, Nat.zero_add]
    rw [show (⟨c, pre ++ Elem3.tetra n1 n0 n2 n3 :: suf⟩ : Mesh3).elems
        = pre ++ Elem3.tetra n1 n0 n2 n3 :: suf from rfl]
    rw [List.countP_append, List.countP_cons]
    have hpre : pre.countP (fun e =>
        decide (elemVolume ⟨c, pre ++ Elem3.tetra n1 n0 n2 n3 :: suf⟩ e < -EPS)) = 0 := by
      rw [List.countP_eq_zero]
      intro e he
      simp only [decide_eq_true_eq, not_lt]
      rw [elemVolume_congr c _ (pre ++ Elem3.tetra n0 n1 n2 n3 :: suf)]
      have := hpos e (List.mem_append_left _ he)
      linarith [EPS_pos]
    have hsuf : suf.countP (fun e =>
        decide (elemVolume ⟨c, pre ++ Elem3.tetra n1 n0 n2 n3 :: suf⟩ e < -EPS)) = 0 := by
      rw [List.countP_eq_zero]
      intro e he
      simp only [decide_eq_true_eq, not_lt]
      rw [elemVolume_congr c _ (pre ++ Elem3.tetra n0 n1 n2 n3 :: suf)]
      have := hpos e (List.mem_append_right _ (List.mem_cons_of_mem _ he))
      linarith [EPS_pos]
    have hmid : elemVolume ⟨c, pre ++ Elem3.tetra n1 n0 n2 n3 :: suf⟩
        (Elem3.tetra n1 n0 n2 n3) < -EPS := by
      rw [hneg]
      linarith
    rw [hpre, hsuf]
    simp [hmid]
  · have hle := foldl_min_le_mem
      (fun e => elemVolume ⟨c, pre ++ Elem3.tetra n1 n0 n2 n3 :: suf⟩ e)
      (pre ++ Elem3.tetra n1 n0 n2 n3 :: suf) (10 ^ 22)
      (Elem3.tetra n1 n0 n2 n3)
      (List.mem_append_right _ (List.mem_cons_self _ _))
    rw [Check_Grid3D_MinVolume]
    refine lt_of_le_of_lt hle ?_
    show elemVolume ⟨c, pre ++ Elem3.tetra n1 n0 n2 n3 :: suf⟩ (Elem3.tetra n1 n0 n2 n3) < 0
    rw [hneg]
    linarith [EPS_pos]
  · intro m2
    rw [Check_Grid2D_ElemCounter, countNeg2D_eq_countP, Nat.zero_add,
      List.countP_eq_zero]
    intro e he
    simp only [decide_eq_true_eq, not_lt]
    linarith [elemArea_nonneg m2 e, EPS_pos]

/-- Witness for `C1_amended`: a one-element mesh holding the right unit
tetrahedron, inverted by swapping its first two corner ids. -/
theorem C1_amended_witness :
    (∀ e ∈ (⟨rightTetraCorners, [Elem3.tetra 0 1 2 3]⟩ : Mesh3).elems,
        EPS < elemVolume ⟨rightTetraCorners, [Elem3.tetra 0 1 2 3]⟩ e) ∧
    (Check_Grid3D_ElemCounter (⟨rightTetraCorners, [Elem3.tetra 0 1 2 3]⟩ : Mesh3) = 0 ∧
     Check_Grid3D_ElemCounter (⟨rightTetraCorners, [Elem3.tetra 1 0 2 3]⟩ : Mesh3) = 1 ∧
     Check_Grid3D_MinVolume (⟨rightTetraCorners, [Elem3.tetra 1 0 2 3]⟩ : Mesh3) < 0 ∧
     elemVolume (⟨rightTetraCorners, [Elem3.tetra 1 0 2 3]⟩ : Mesh3) (Elem3.tetra 1 0 2 3) =
       - elemVolume (⟨rightTetraCorners, [Elem3.tetra 0 1 2 3]⟩ : Mesh3) (Elem3.tetra 0 1 2 3) ∧
     (∀ m2 : Mesh2, Check_Grid2D_ElemCounter m2 = 0)) := by
  have hpos : ∀ e ∈ (⟨rightTetraCorners, [Elem3.tetra 0 1 2 3]⟩ : Mesh3).elems,
      EPS < elemVolume ⟨rightTetraCorners, [Elem3.tetra 0 1 2 3]⟩ e := by
    intro e he
    rw [List.mem_singleton] at he
    subst he
    rw [elemVolume_tetra]
    norm_num [subTetraVol, rightTetraCorners, EPS]
  exact ⟨hpos, C1_amended rightTetraCorners [] [] 0 1 2 3 _ _ rfl rfl hpos⟩

/-- The slice of `CPoint` (dual_grid_structure) relevant to the per-marker
boundary-vertex-index bookkeeping: the `Boundary` flag and the `vertex` array
(per-marker boundary-vertex index, allocated only for boundary points). -/
structure CPointV where
  boundary : Bool
  vertex : ℕ → ℤ

/-- `CPoint::SetVertex` (dual_grid_structure.inl:132): writes the per-marker
index only when the `Boundary` flag is set. -/
def CPoint_SetVertex (p : CPointV) (val_vertex : ℤ) (val_nmarker : ℕ) : CPointV :=
  if p.boundary then { p with vertex := Function.update p.vertex val_nmarker val_vertex }
  else p

/-- `CPoint::GetVertex` (dual_grid_structure.inl:138): reads the per-marker index
when the `Boundary` flag is set, and returns `-1` otherwise. -/
def CPoint_GetVertex (p : CPointV) (val_marker : ℕ) : ℤ :=
  if p.boundary then p.vertex val_marker else -1

/-- C10: for a non-boundary point, `GetVertex` returns `-1` for every marker and
`SetVertex` changes nothing; the vertex storage is touched only when the boundary
flag is set. -/
theorem C10_nonboundary_vertex_noop (p : CPointV) (marker : ℕ) (v : ℤ)
    (hb : p.boundary = false) :
    CPoint_GetVertex p marker = -1 ∧ CPoint_SetVertex p v marker = p := by
  constructor
  · rw [CPoint_GetVertex, hb]
    simp
  · rw [CPoint_SetVertex, hb]
    simp

/-- Witness for `C10_nonboundary_vertex_noop` at a concrete non-boundary point. -/
theorem C10_nonboundary_vertex_noop_witness :
    (⟨false, fun _ => 5⟩ : CPointV).boundary = false ∧
    (CPoint_GetVertex ⟨false, fun _ => 5⟩ 2 = -1 ∧
     CPoint_SetVertex ⟨false, fun _ => 5⟩ 3 2 = ⟨false, fun _ => 5⟩) :=
  ⟨rfl, C10_nonboundary_vertex_noop ⟨false, fun _ => 5⟩ 2 3 rfl⟩

/-- A boundary vertex as the surface-movement routines see it: its point
coordinate, face normal, and the accumulated coordinate delta (`VarCoord`). -/
structure SMVertex where
  coord : Vec3
  normal : Vec3
  varCoord : Vec3
  deriving DecidableEq

/-- One boundary marker: its design-variable flag (`GetMarker_All_DV`) and its
boundary vertices. -/
structure SMMarker where
  isDV : Bool
  verts : List SMVertex
  deriving DecidableEq

/-- The boundary geometry handed to the surface-movement routines: the spatial
dimension and the per-marker vertex lists. -/
structure SMBoundary where
  nDim : ℕ
  markers : List SMMarker
  deriving DecidableEq

/-- `CVertex::SetVarCoord` (dual_grid_structure.inl:283): overwrite the first
`nDim` components, leaving the rest untouched. -/
def setVarCoord (nDim : ℕ) (old w : Vec3) : Vec3 :=
  ⟨if 1 ≤ nDim then w.x else old.x,
   if 2 ≤ nDim then w.y else old.y,
   if 3 ≤ nDim then w.z else old.z⟩

/-- `CVertex::AddVarCoord` (dual_grid_structure.inl:288): accumulate into the
first `nDim` components. -/
def addVarCoord (nDim : ℕ) (old w : Vec3) : Vec3 :=
  ⟨if 1 ≤ nDim then old.x + w.x else old.x,
   if 2 ≤ nDim then old.y + w.y else old.y,
   if 3 ≤ nDim then old.z + w.z else old.z⟩

/-- The design-variable slice of the run configuration consumed by the surface
deformation routines: the design-variable count, per-DV parameter vectors
(`GetParamDV`) and per-DV amplitudes (`GetDV_Value`). -/
structure DVConfig where
  nDV : ℕ
  paramDV : ℕ → ℕ → ℚ
  dvValue : ℕ → ℚ

/-- The reset pass shared by `SetRotation` and `SetDisplacement`
(grid_movement_structure.cpp:3821, 3893): when `iDV == 0` or `ResetDef`, every
vertex of every marker gets its `VarCoord` overwritten with zero. -/
def resetVarCoords (b : SMBoundary) : SMBoundary :=
  { b with markers := b.markers.map fun mk =>
      { mk with verts := mk.verts.map fun v =>
          { v with varCoord := setVarCoord b.nDim v.varCoord ⟨0, 0, 0⟩ } } }

/-- `CSurfaceMovement::SetDisplacement` (grid_movement_structure.cpp:3885):
optional reset, then accumulate `Ampl * (xDispl, yDispl, zDispl)` into every
design-variable-marked vertex (and zero into the rest). -/
def SetDisplacement (b : SMBoundary) (config : DVConfig) (iDV : ℕ) (resetDef : Bool) :
    SMBoundary :=
  let Ampl := config.dvValue iDV
  let b1 := if iDV = 0 ∨ resetDef = true then resetVarCoords b else b
  let xDispl := config.paramDV iDV 0
  let yDispl := config.paramDV iDV 1
  let zDispl := if b.nDim = 3 then config.paramDV iDV 2 else 0
  { b1 with markers := b1.markers.map fun mk =>
      { mk with verts := mk.verts.map fun v =>
          { v with varCoord :=
              (addVarCoord b.nDim v.varCoord
                (if mk.isDV then
                  ⟨Ampl * xDispl, Ampl * yDispl,
                   if b.nDim = 3 then Ampl * zDispl else 0⟩
                 else ⟨0, 0, 0⟩)) } } }

theorem SetDisplacement_nDim (b : SMBoundary) (cfg : DVConfig) (iDV : ℕ) (r : Bool) :
    (SetDisplacement b cfg iDV r).nDim = b.nDim := by
  rw [SetDisplacement]
  by_cases h : iDV = 0 ∨ r = true <;> simp [h, resetVarCoords]

/-- C6: two `SetDisplacement` design variables of displacement (1,0,0) and (0,1,0)
applied in sequence on a 3D boundary leave every design-variable vertex with
accumulated delta (1,1,0) when the second call does not reset, and (0,1,0) when it
does; and whenever `iDV = 0` or a reset is requested, every vertex delta is zeroed
before the call applies its own contribution (the result is independent of the
previously stored deltas). -/
theorem C6_displacement_accumulate_vs_reset (cfg : DVConfig) (b : SMBoundary)
    (h3 : b.nDim = 3)
    (hA0 : cfg.dvValue 0 = 1) (hx0 : cfg.paramDV 0 0 = 1) (hy0 : cfg.paramDV 0 1 = 0)
    (hz0 : cfg.paramDV 0 2 = 0)
    (hA1 : cfg.dvValue 1 = 1) (hx1 : cfg.paramDV 1 0 = 0) (hy1 : cfg.paramDV 1 1 = 1)
    (hz1 : cfg.paramDV 1 2 = 0) :
    (SetDisplacement (SetDisplacement b cfg 0 false) cfg 1 false).markers
      = b.markers.map (fun mk => { mk with verts := mk.verts.map fun v =>
          { v with varCoord := if mk.isDV then ⟨1, 1, 0⟩ else ⟨0, 0, 0⟩ } }) ∧
    (SetDisplacement (SetDisplacement b cfg 0 false) cfg 1 true).markers
      = b.markers.map (fun mk => { mk with verts := mk.verts.map fun v =>
          { v with varCoord := if mk.isDV then ⟨0, 1, 0⟩ else ⟨0, 0, 0⟩ } }) ∧
    (∀ (cfg2 : DVConfig) (iDV : ℕ) (r : Bool), iDV = 0 ∨ r = true →
      (SetDisplacement b cfg2 iDV r).markers
        = b.markers.map (fun mk => { mk with verts := mk.verts.map fun v =>
            { v with varCoord := if mk.isDV then
                ⟨cfg2.dvValue iDV * cfg2.paramDV iDV 0,
                 cfg2.dvValue iDV * cfg2.paramDV iDV 1,
                 cfg2.dvValue iDV * cfg2.paramDV iDV 2⟩ else ⟨0, 0, 0⟩ } })) := by
  refine ⟨?_, ?_, ?_⟩
  · simp only [SetDisplacement, resetVarCoords, h3]
    norm_num
    intro mk _ v _
    cases hdv : mk.isDV <;>
      simp [hdv, setVarCoord, addVarCoord, hA0, hx0, hy0, hz0, hA1, hx1, hy1, hz1]
  · simp only [SetDisplacement, resetVarCoords, h3]
    norm_num
    intro mk _ v _
    cases hdv : mk.isDV <;>
      simp [hdv, setVarCoord, addVarCoord, hA0, hx0, hy0, hz0, hA1, hx1, hy1, hz1]
  · intro cfg2 iDV r hr
    simp only [SetDisplacement, resetVarCoords, h3, if_pos hr]
    norm_num
    intro mk _ v _
    cases hdv : mk.isDV <;> simp [hdv, setVarCoord, addVarCoord]

/-- A concrete two-design-variable configuration: DV 0 displaces by (1,0,0) and
DV 1 by (0,1,0), both with amplitude 1. -/
def cfgC6 : DVConfig :=
  ⟨2, fun i j => if i = 0 ∧ j = 0 then 1 else if i = 1 ∧ j = 1 then 1 else 0, fun _ => 1⟩

/-- A concrete 3D boundary with one design-variable marker holding one vertex. -/
def bC6 : SMBoundary := ⟨3, [⟨true, [⟨⟨0, 0, 0⟩, ⟨0, 1, 0⟩, ⟨0, 0, 0⟩⟩]⟩]⟩

/-- Witness for `C6_displacement_accumulate_vs_reset` at the concrete boundary and
configuration. -/
theorem C6_displacement_accumulate_vs_reset_witness :
    (bC6.nDim = 3 ∧ cfgC6.dvValue 0 = 1 ∧ cfgC6.paramDV 0 0 = 1 ∧ cfgC6.paramDV 0 1 = 0 ∧
     cfgC6.paramDV 0 2 = 0 ∧ cfgC6.dvValue 1 = 1 ∧ cfgC6.paramDV 1 0 = 0 ∧
     cfgC6.paramDV 1 1 = 1 ∧ cfgC6.paramDV 1 2 = 0) ∧
    ((SetDisplacement (SetDisplacement bC6 cfgC6 0 false) cfgC6 1 false).markers
      = bC6.markers.map (fun mk => { mk with verts := mk.verts.map fun v =>
          { v with varCoord := if mk.isDV then ⟨1, 1, 0⟩ else ⟨0, 0, 0⟩ } }) ∧
     (SetDisplacement (SetDisplacement bC6 cfgC6 0 false) cfgC6 1 true).markers
      = bC6.markers.map (fun mk => { mk with verts := mk.verts.map fun v =>
          { v with varCoord := if mk.isDV then ⟨0, 1, 0⟩ else ⟨0, 0, 0⟩ } }) ∧
     (∀ (cfg2 : DVConfig) (iDV : ℕ) (r : Bool), iDV = 0 ∨ r = true →
      (SetDisplacement bC6 cfg2 iDV r).markers
        = bC6.markers.map (fun mk => { mk with verts := mk.verts.map fun v =>
            { v with varCoord := if mk.isDV then
                ⟨cfg2.dvValue iDV * cfg2.paramDV iDV 0,
                 cfg2.dvValue iDV * cfg2.paramDV iDV 1,
                 cfg2.dvValue iDV * cfg2.paramDV iDV 2⟩ else ⟨0, 0, 0⟩ } }))) :=
  ⟨⟨rfl, rfl, by decide, by decide, by decide, rfl, by decide, by decide, by decide⟩,
   C6_displacement_accumulate_vs_reset cfgC6 bC6 rfl rfl (by decide) (by decide)
     (by decide) rfl (by decide) (by decide) (by decide)⟩

/-- `CSurfaceMovement::SetObstacle` (grid_movement_structure.cpp:5217).  The
returned flag records whether the multiple-deformation complaint was printed
(`GetnDV() != 1`); the source then merely waits on `cin.get()` and continues, so
the deformation below is applied in either case. -/
def SetObstacle (b : SMBoundary) (config : DVConfig) : Bool × SMBoundary :=
  let warned := decide (config.nDV ≠ 1)
  let H := config.paramDV 0 0
  let L := config.paramDV 0 1
  let xOffSet : ℚ := 0
  (warned, { b with markers := b.markers.map fun mk =>
    { mk with verts := mk.verts.map fun v =>
        { v with varCoord :=
            (setVarCoord b.nDim v.varCoord
              (if mk.isDV then
                (let xCoord := v.coord.x - xOffSet
                 if 0 < xCoord ∧ xCoord < L then
                   ⟨0, (27/4) * (H/(L*L*L)) * xCoord * (xCoord - L) * (xCoord - L), 0⟩
                 else ⟨0, 0, 0⟩)
               else ⟨0, 0, 0⟩)) } } })

/-- `CSurfaceMovement::SetParabolic` (grid_movement_structure.cpp:5188); the same
`GetnDV() != 1` complaint-and-continue behavior as `SetObstacle`. -/
def SetParabolic (b : SMBoundary) (config : DVConfig) : Bool × SMBoundary :=
  let warned := decide (config.nDV ≠ 1)
  let c := config.paramDV 0 0
  let t := config.paramDV 0 1 / 100
  (warned, { b with markers := b.markers.map fun mk =>
    { mk with verts := mk.verts.map fun v =>
        { v with varCoord :=
            (setVarCoord b.nDim v.varCoord
              (if mk.isDV then
                (if 0 < v.normal.y then
                   ⟨0, t * (v.coord.x * v.coord.x - v.coord.x) / (2 * (c * c - c)) - v.coord.y, 0⟩
                 else if v.normal.y < 0 then
                   ⟨0, t * (v.coord.x - v.coord.x * v.coord.x) / (2 * (c * c - c)) - v.coord.y, 0⟩
                 else ⟨0, 0, 0⟩)
               else ⟨0, 0, 0⟩)) } } })

/-- `CSurfaceMovement::SetNACA_4Digits` (grid_movement_structure.cpp:5151); the
`sqrt` of the thickness distribution is passed in as `sqrtFn`.  Same
complaint-and-continue behavior on `GetnDV() != 1`. -/
def SetNACA_4Digits (sqrtFn : ℚ → ℚ) (b : SMBoundary) (config : DVConfig) :
    Bool × SMBoundary :=
  let warned := decide (config.nDV ≠ 1)
  let Ya := config.paramDV 0 0 / 100
  let Xa := config.paramDV 0 1 / 10
  let t := config.paramDV 0 2 / 100
  (warned, { b with markers := b.markers.map fun mk =>
    { mk with verts := mk.verts.map fun v =>
        { v with varCoord :=
            (setVarCoord b.nDim v.varCoord
              (if mk.isDV then
                (let Ycurv := if v.coord.x < Xa then
                    (2 * Xa * v.coord.x - v.coord.x ^ 2) * (Ya / Xa ^ 2)
                  else ((1 - 2 * Xa) + 2 * Xa * v.coord.x - v.coord.x ^ 2) *
                    (Ya / (1 - Xa) ^ 2)
                 let Yesp := t * ((1.4845 : ℚ) * sqrtFn v.coord.x - (0.6300 : ℚ) * v.coord.x -
                    (1.7580 : ℚ) * v.coord.x ^ 2 + (1.4215 : ℚ) * v.coord.x ^ 3 -
                    (0.518 : ℚ) * v.coord.x ^ 4)
                 if 0 < v.normal.y then ⟨0, (Ycurv + Yesp) - v.coord.y, 0⟩
                 else if v.normal.y < 0 then ⟨0, (Ycurv - Yesp) - v.coord.y, 0⟩
                 else ⟨0, 0, 0⟩)
               else ⟨0, 0, 0⟩)) } } })

/-- A two-design-variable configuration (more than the one these generators
expect) whose DV-0 parameters give an obstacle of height 1 and length 1. -/
def cfgC3 : DVConfig :=
  ⟨2, fun _ j => if j = 0 then 1 else if j = 1 then 1 else 0, fun _ => 0⟩

/-- A 2D boundary with one design-variable marker holding one vertex at
x = 1/2 with a nonzero stored delta. -/
def bC3 : SMBoundary := ⟨2, [⟨true, [⟨⟨1/2, 5, 0⟩, ⟨0, 1, 0⟩, ⟨5, 5, 5⟩⟩]⟩]⟩

/-- C3, counterexample: with two design variables configured, `SetObstacle` prints
its complaint but does not terminate; it proceeds to overwrite the vertex delta
(here with (0, 27/32) on the first two components), so the boundary is modified
rather than the process being terminated before any change. -/
theorem C3_counterexample :
    (SetObstacle bC3 cfgC3).1 = true ∧
    (SetObstacle bC3 cfgC3).2.markers
      = [⟨true, [⟨⟨1/2, 5, 0⟩, ⟨0, 1, 0⟩, ⟨0, 27/32, 5⟩⟩]⟩] ∧
    (SetObstacle bC3 cfgC3).2 ≠ bC3 := by
  have h2 : (SetObstacle bC3 cfgC3).2.markers
      = [⟨true, [⟨⟨1/2, 5, 0⟩, ⟨0, 1, 0⟩, ⟨0, 27/32, 5⟩⟩]⟩] := by
    simp only [SetObstacle, bC3, cfgC3, setVarCoord, List.map]
    norm_num
  refine ⟨by decide, h2, fun he => ?_⟩
  rw [he] at h2
  simp only [bC3, List.cons.injEq, SMMarker.mk.injEq, SMVertex.mk.injEq,
    Vec3.mk.injEq] at h2
  have := h2.1.2.1.2.2.2
  norm_num at this

/-- C3, amended: when more than one design variable is configured,
`SetNACA_4Digits`, `SetParabolic` and `SetObstacle` report the problem to the
console, pause for console input, and then continue: the deformation they apply
is exactly the one they would apply with a single design variable (the process is
not terminated). -/
theorem C3_amended (b : SMBoundary) (cfg : DVConfig) (sqrtFn : ℚ → ℚ)
    (h : cfg.nDV ≠ 1) :
    (SetObstacle b cfg).1 = true ∧
    (SetObstacle b cfg).2 = (SetObstacle b { cfg with nDV := 1 }).2 ∧
    (SetParabolic b cfg).1 = true ∧
    (SetParabolic b cfg).2 = (SetParabolic b { cfg with nDV := 1 }).2 ∧
    (SetNACA_4Digits sqrtFn b cfg).1 = true ∧
    (SetNACA_4Digits sqrtFn b cfg).2 = (SetNACA_4Digits sqrtFn b { cfg with nDV := 1 }).2 := by
  refine ⟨by simp [SetObstacle, h], rfl, by simp [SetParabolic, h], rfl,
    by simp [SetNACA_4Digits, h], rfl⟩

/-- Witness for `C3_amended` at the concrete two-design-variable configuration. -/
theorem C3_amended_witness :
    cfgC3.nDV ≠ 1 ∧
    ((SetObstacle bC3 cfgC3).1 = true ∧
     (SetObstacle bC3 cfgC3).2 = (SetObstacle bC3 { cfgC3 with nDV := 1 }).2 ∧
     (SetParabolic bC3 cfgC3).1 = true ∧
     (SetParabolic bC3 cfgC3).2 = (SetParabolic bC3 { cfgC3 with nDV := 1 }).2 ∧
     (SetNACA_4Digits (fun _ => 0) bC3 cfgC3).1 = true ∧
     (SetNACA_4Digits (fun _ => 0) bC3 cfgC3).2
       = (SetNACA_4Digits (fun _ => 0) bC3 { cfgC3 with nDV := 1 }).2) :=
  ⟨by decide, C3_amended bC3 cfgC3 (fun _ => 0) (by decide)⟩

/-- A volume-mesh node as `Rigid_Translation` touches it: coordinate and grid
velocity. -/
structure RigidNode where
  coord : Vec3
  gridVel : Vec3
  deriving DecidableEq

/-- The volume mesh handed to the rigid-motion routines. -/
structure RigidGeometry where
  nDim : ℕ
  nodes : List RigidNode
  deriving DecidableEq

/-- The motion-related slice of the run configuration consumed by
`Rigid_Translation` (single zone). -/
structure MotionConfig where
  deltaT : ℚ
  motionOrigin : Vec3
  translationRate : Vec3
  refOriginMoments : List Vec3
  adjoint : Bool
  timeSpectral : Bool
  period : ℚ
  nTimeInstances : ℕ
  nExtIter : ℕ

/-- `CVolumetricMovement::Rigid_Translation` (grid_movement_structure.cpp:2201),
for a single zone: computes `deltaX = xDot * (time_new - time_old)`, adds it to
the first `nDim` components of every node coordinate, overwrites the first `nDim`
components of every grid velocity with the rate (direct runs only), and advances
the motion origin and every moment-reference origin by `deltaX`.  The per-`nDim`
component loops reuse the componentwise write/accumulate helpers. -/
def Rigid_Translation (geo : RigidGeometry) (config : MotionConfig) (iter : ℕ) :
    RigidGeometry × MotionConfig :=
  let deltaT := if config.timeSpectral then config.period / (config.nTimeInstances : ℚ)
    else config.deltaT
  let xDot := config.translationRate
  let time_new : ℚ :=
    if config.adjoint then ((config.nExtIter - iter - 1 : ℕ) : ℚ) * deltaT
    else (iter : ℚ) * deltaT
  let time_old : ℚ :=
    if config.adjoint then
      (if iter ≠ 0 then ((config.nExtIter - iter - 1 : ℕ) : ℚ) + 1 else
        ((config.nExtIter - iter - 1 : ℕ) : ℚ)) * deltaT
    else if config.timeSpectral then 0
    else if iter ≠ 0 then ((iter : ℚ) - 1) * deltaT else time_new
  let dX : Vec3 := ⟨xDot.x * (time_new - time_old), xDot.y * (time_new - time_old),
    xDot.z * (time_new - time_old)⟩
  (⟨geo.nDim, geo.nodes.map fun n =>
      ⟨addVarCoord geo.nDim n.coord dX,
       if config.adjoint then n.gridVel else setVarCoord geo.nDim n.gridVel xDot⟩⟩,
   { config with
      motionOrigin := ⟨config.motionOrigin.x + dX.x, config.motionOrigin.y + dX.y,
        config.motionOrigin.z + dX.z⟩
      refOriginMoments := config.refOriginMoments.map fun c =>
        ⟨c.x + dX.x, c.y + dX.y, c.z + dX.z⟩ })

/-- C8: in a direct (non-adjoint), non-time-spectral run, `Rigid_Translation` at
iteration 0 (a zero time step) leaves every coordinate, the motion origin and
every moment origin unchanged while writing the configured translation rate into
every grid velocity; and two successive half-time-step calls (at any iterations
≥ 1) produce exactly the same nodes, motion origin and moment origins as one
full-step call (at any iteration ≥ 1): the per-call delta is rate times elapsed
time and composes additively. -/
theorem setVarCoord_setVarCoord (d : ℕ) (g w w2 : Vec3) :
    setVarCoord d (setVarCoord d g w) w2 = setVarCoord d g w2 := by
  simp only [setVarCoord]
  by_cases h1 : 1 ≤ d <;> by_cases h2 : 2 ≤ d <;> by_cases h3 : 3 ≤ d <;>
    simp [h1, h2, h3]

theorem addVarCoord_addVarCoord (d : ℕ) (g v w : Vec3) :
    addVarCoord d (addVarCoord d g v) w = addVarCoord d g ⟨v.x + w.x, v.y + w.y, v.z + w.z⟩ := by
  simp only [addVarCoord]
  by_cases h1 : 1 ≤ d <;> by_cases h2 : 2 ≤ d <;> by_cases h3 : 3 ≤ d <;>
    simp [h1, h2, h3] <;> ring_nf <;> simp [add_assoc]

theorem C8_rigid_translation_compose (geo : RigidGeometry) (cfg : MotionConfig)
    (i j : ℕ) (hadj : cfg.adjoint = false) (hts : cfg.timeSpectral = false)
    (hi : 1 ≤ i) (hj : 1 ≤ j) :
    ((Rigid_Translation geo cfg 0).1.nodes = geo.nodes.map (fun n =>
        ⟨n.coord, setVarCoord geo.nDim n.gridVel cfg.translationRate⟩) ∧
     (Rigid_Translation geo cfg 0).2 = cfg) ∧
    ((Rigid_Translation (Rigid_Translation geo
          { cfg with deltaT := cfg.deltaT / 2 } i).1
        (Rigid_Translation geo { cfg with deltaT := cfg.deltaT / 2 } i).2 (i + 1)).1
      = (Rigid_Translation geo cfg j).1 ∧
     (Rigid_Translation (Rigid_Translation geo
          { cfg with deltaT := cfg.deltaT / 2 } i).1
        (Rigid_Translation geo { cfg with deltaT := cfg.deltaT / 2 } i).2 (i + 1)).2.motionOrigin
      = (Rigid_Translation geo cfg j).2.motionOrigin ∧
     (Rigid_Translation (Rigid_Translation geo
          { cfg with deltaT := cfg.deltaT / 2 } i).1
        (Rigid_Translation geo { cfg with deltaT := cfg.deltaT / 2 } i).2 (i + 1)).2.refOriginMoments
      = (Rigid_Translation geo cfg j).2.refOriginMoments) := by
  have hine : i ≠ 0 := by omega
  have hjne : j ≠ 0 := by omega
  constructor
  · constructor
    · simp only [Rigid_Translation, hadj, hts]
      norm_num
      intro n _
      cases n
      simp [addVarCoord]
    · simp only [Rigid_Translation, hadj, hts]
      norm_num
      cases cfg
      simp_all
  · refine ⟨?_, ?_, ?_⟩
    · simp only [Rigid_Translation, hadj, hts]
      norm_num
      simp only [hine, hjne, if_false]
      intro n _
      refine ⟨?_, setVarCoord_setVarCoord _ _ _ _⟩
      rw [addVarCoord_addVarCoord]
      congr 1
      simp only [Vec3.mk.injEq]
      refine ⟨by ring, by ring, by ring⟩
    · simp only [Rigid_Translation, hadj, hts]
      norm_num
      simp only [hine, hjne, if_false]
      refine ⟨by ring, by ring, by ring⟩
    · simp only [Rigid_Translation, hadj, hts]
      norm_num
      simp only [hine, hjne, if_false]
      intro c _
      refine ⟨by ring, by ring, by ring⟩

/-- A concrete direct-run motion configuration: time step 1, translation rate
(2,3,4), one monitored marker. -/
def cfgC8 : MotionConfig := ⟨1, ⟨0, 0, 0⟩, ⟨2, 3, 4⟩, [⟨1, 1, 1⟩], false, false, 0, 1, 0⟩

/-- A concrete one-node 3D volume mesh. -/
def geoC8 : RigidGeometry := ⟨3, [⟨⟨0, 0, 0⟩, ⟨9, 9, 9⟩⟩]⟩

/-- Witness for `C8_rigid_translation_compose` at the concrete mesh and
configuration, with the half-steps at iterations 1 and 2 versus a full step at
iteration 2. -/
theorem C8_rigid_translation_compose_witness :
    (cfgC8.adjoint = false ∧ cfgC8.timeSpectral = false ∧ 1 ≤ 1 ∧ 1 ≤ 2) ∧
    (((Rigid_Translation geoC8 cfgC8 0).1.nodes = geoC8.nodes.map (fun n =>
         ⟨n.coord, setVarCoord geoC8.nDim n.gridVel cfgC8.translationRate⟩) ∧
      (Rigid_Translation geoC8 cfgC8 0).2 = cfgC8) ∧
     ((Rigid_Translation (Rigid_Translation geoC8
           { cfgC8 with deltaT := cfgC8.deltaT / 2 } 1).1
         (Rigid_Translation geoC8 { cfgC8 with deltaT := cfgC8.deltaT / 2 } 1).2 (1 + 1)).1
       = (Rigid_Translation geoC8 cfgC8 2).1 ∧
      (Rigid_Translation (Rigid_Translation geoC8
           { cfgC8 with deltaT := cfgC8.deltaT / 2 } 1).1
         (Rigid_Translation geoC8 { cfgC8 with deltaT := cfgC8.deltaT / 2 } 1).2 (1 + 1)).2.motionOrigin
       = (Rigid_Translation geoC8 cfgC8 2).2.motionOrigin ∧
      (Rigid_Translation (Rigid_Translation geoC8
           { cfgC8 with deltaT := cfgC8.deltaT / 2 } 1).1
         (Rigid_Translation geoC8 { cfgC8 with deltaT := cfgC8.deltaT / 2 } 1).2 (1 + 1)).2.refOriginMoments
       = (Rigid_Translation geoC8 cfgC8 2).2.refOriginMoments)) :=
  ⟨⟨rfl, rfl, le_refl 1, by omega⟩,
   C8_rigid_translation_compose geoC8 cfgC8 1 2 rfl rfl (le_refl 1) (by omega)⟩

/-- The closed-form rotated-point delta of `CSurfaceMovement::SetRotation`
(grid_movement_structure.cpp:3860): the Rodrigues-style expression about the line
through (a,b,c) with direction (u,v,w), divided by `l2`, minus the original
point; the z component is computed (and stored) only in 3D. -/
def rotMovement (nDim : ℕ) (a b c u v w l cosT sinT : ℚ) (p : Vec3) : Vec3 :=
  let x := p.x
  let y := p.y
  let z := p.z
  let u2 := u * u
  let v2 := v * v
  let w2 := w * w
  let l2 := u2 + v2 + w2
  let m0 := (a * (v2 + w2) + u * (-b * v - c * w + u * x + v * y + w * z)
      + (-a * (v2 + w2) + u * (b * v + c * w - v * y - w * z) + (v2 + w2) * x) * cosT
      + l * (-c * v + b * w - w * y + v * z) * sinT) / l2 - x
  let m1 := (b * (u2 + w2) + v * (-a * u - c * w + u * x + v * y + w * z)
      + (-b * (u2 + w2) + v * (a * u + c * w - u * x - w * z) + (u2 + w2) * y) * cosT
      + l * (c * u - a * w + w * x - u * z) * sinT) / l2 - y
  let m2 := if nDim = 3 then
      (c * (u2 + v2) + w * (-a * u - b * v + u * x + v * y + w * z)
      + (-c * (u2 + v2) + w * (a * u + b * v - u * x - v * y) + (u2 + v2) * z) * cosT
      + l * (-b * u + a * v - v * x + u * y) * sinT) / l2 - z
    else 0
  ⟨m0, m1, if nDim = 3 then m2 else 0⟩

/-- `CSurfaceMovement::SetRotation` (grid_movement_structure.cpp:3812): optional
reset, then accumulate the rotation delta into every design-variable-marked
vertex.  The point on the rotation line is (`ParamDV(iDV,0)`, `ParamDV(iDV,1)`,
`ParamDV(0,2)`) — note the z component is read from design variable 0 — and the
direction is the difference of `ParamDV(iDV,3..5)` and `ParamDV(iDV,0..2)`.
`cos`, `sin` of the rotation angle and the `sqrt` of `l2` are passed in as
values. -/
def SetRotation (sqrtFn : ℚ → ℚ) (cosT sinT : ℚ) (bd : SMBoundary)
    (config : DVConfig) (iDV : ℕ) (resetDef : Bool) : SMBoundary :=
  let b1 := if iDV = 0 ∨ resetDef = true then resetVarCoords bd else bd
  let a := config.paramDV iDV 0
  let b := config.paramDV iDV 1
  let c := if bd.nDim = 3 then config.paramDV 0 2 else 0
  let u := config.paramDV iDV 3 - config.paramDV iDV 0
  let v := config.paramDV iDV 4 - config.paramDV iDV 1
  let w := if bd.nDim = 3 then config.paramDV iDV 5 - config.paramDV iDV 2 else 1
  let l2 := u * u + v * v + w * w
  let l := sqrtFn l2
  { b1 with markers := b1.markers.map fun mk =>
      { mk with verts := mk.verts.map fun vx =>
          { vx with varCoord :=
              (addVarCoord bd.nDim vx.varCoord
                (if mk.isDV then rotMovement bd.nDim a b c u v w l cosT sinT vx.coord
                 else ⟨0, 0, 0⟩)) } } }

/-- A three-design-variable configuration in which DV 1 and DV 2 are rotation
variables differing only in their z-origin parameter (`ParamDV(i,2)`: 0 for DV 1
versus 1 for DV 2), both with a vertical direction reaching `ParamDV(i,5) = 10`,
while DV 0 carries z-origin 7. -/
def cfgC9 : DVConfig :=
  ⟨3, fun i j =>
    if i = 0 then (if j = 2 then 7 else 0)
    else if i = 1 then (if j = 5 then 10 else 0)
    else (if j = 5 then 10 else if j = 2 then 1 else 0),
   fun _ => 1⟩

/-- C9: the z coordinate of the rotation-line point is read from design variable
0 (parameter 2), not from design variable `iDV`; `iDV`'s own parameters 2 and 5
enter only through their difference (the direction's z component), so two configs
that agree on DV 0's parameter 2, on `iDV`'s parameters 0, 1, 3, 4 and on the
difference of parameters 5 and 2 yield identical results; and in `cfgC9` the pair
of rotation design variables 1 and 2, which differ only in their z-origin
parameter, produce identical coordinate deltas on every 3D boundary. -/
theorem C9_rotation_z_origin_from_dv0 (sqrtFn : ℚ → ℚ) (cosT sinT : ℚ)
    (bd : SMBoundary) (cfg cfg2 : DVConfig) (iDV : ℕ) (r : Bool)
    (hc : cfg2.paramDV 0 2 = cfg.paramDV 0 2)
    (h0 : cfg2.paramDV iDV 0 = cfg.paramDV iDV 0)
    (h1 : cfg2.paramDV iDV 1 = cfg.paramDV iDV 1)
    (h3 : cfg2.paramDV iDV 3 = cfg.paramDV iDV 3)
    (h4 : cfg2.paramDV iDV 4 = cfg.paramDV iDV 4)
    (hw : cfg2.paramDV iDV 5 - cfg2.paramDV iDV 2
        = cfg.paramDV iDV 5 - cfg.paramDV iDV 2) :
    SetRotation sqrtFn cosT sinT bd cfg2 iDV r
      = SetRotation sqrtFn cosT sinT bd cfg iDV r ∧
    (∀ (sqrtFn2 : ℚ → ℚ), sqrtFn2 100 = 10 → sqrtFn2 81 = 9 →
      ∀ (cosT2 sinT2 : ℚ) (bd2 : SMBoundary), bd2.nDim = 3 → ∀ (r2 : Bool),
        SetRotation sqrtFn2 cosT2 sinT2 bd2 cfgC9 1 r2
          = SetRotation sqrtFn2 cosT2 sinT2 bd2 cfgC9 2 r2) := by
  constructor
  · simp only [SetRotation]
    rw [h0, h1, h3, h4, hc, hw]
  · intro sqrtFn2 h100 h81 cosT2 sinT2 bd2 hb3 r2
    have hp : ∀ j, cfgC9.paramDV 1 j = (if j = 5 then 10 else 0) := fun j => rfl
    have hq : ∀ j, cfgC9.paramDV 2 j = (if j = 5 then 10 else if j = 2 then 1 else 0) :=
      fun j => rfl
    simp only [SetRotation, hp, hq, hb3]
    norm_num [h100, h81]
    intro mk _ v _
    cases hdv : mk.isDV
    · simp [hdv]
    · simp only [hdv]
      norm_num [rotMovement, hb3]
      congr 1
      simp only [Vec3.mk.injEq]
      refine ⟨by ring, by ring, by ring⟩

/-- Witness for `C9_rotation_z_origin_from_dv0` with the two configurations taken
equal (all agreement hypotheses by `rfl`) at a concrete boundary. -/
theorem C9_rotation_z_origin_from_dv0_witness :
    (cfgC9.paramDV 0 2 = cfgC9.paramDV 0 2 ∧
     cfgC9.paramDV 1 0 = cfgC9.paramDV 1 0 ∧
     cfgC9.paramDV 1 1 = cfgC9.paramDV 1 1 ∧
     cfgC9.paramDV 1 3 = cfgC9.paramDV 1 3 ∧
     cfgC9.paramDV 1 4 = cfgC9.paramDV 1 4 ∧
     cfgC9.paramDV 1 5 - cfgC9.paramDV 1 2 = cfgC9.paramDV 1 5 - cfgC9.paramDV 1 2) ∧
    (SetRotation (fun _ => 0) 1 0 bC6 cfgC9 1 false
      = SetRotation (fun _ => 0) 1 0 bC6 cfgC9 1 false ∧
     (∀ (sqrtFn2 : ℚ → ℚ), sqrtFn2 100 = 10 → sqrtFn2 81 = 9 →
      ∀ (cosT2 sinT2 : ℚ) (bd2 : SMBoundary), bd2.nDim = 3 → ∀ (r2 : Bool),
        SetRotation sqrtFn2 cosT2 sinT2 bd2 cfgC9 1 r2
          = SetRotation sqrtFn2 cosT2 sinT2 bd2 cfgC9 2 r2)) :=
  ⟨⟨rfl, rfl, rfl, rfl, rfl, rfl⟩,
   C9_rotation_z_origin_from_dv0 (fun _ => 0) 1 0 bC6 cfgC9 cfgC9 1 false
     rfl rfl rfl rfl rfl rfl⟩

/-- The in-place Pascal-row state of `CFreeFormDefBox::Binomial`
(grid_movement_structure.cpp:6536) after outer iteration `i`: slot `i` is set to
1, then slots `i-1` down to 1 accumulate the slot below (reading pre-update
values, since the inner loop runs downward).  The row lives in an
`unsigned long binomial[1000]` buffer, so every accumulation wraps modulo
2^64.  Slots never initialized are modelled as 0 (the source leaves them as
uninitialized memory; every call reads only initialized slots `m ≤ n`). -/
def binomialRow : ℕ → ℕ → ℕ
  | 0 => fun j => if j = 0 then 1 else 0
  | i + 1 => fun j =>
      if j = i + 1 then 1
      else if 1 ≤ j ∧ j ≤ i then (binomialRow i j + binomialRow i (j - 1)) % 2 ^ 64
      else binomialRow i j

/-- `CFreeFormDefBox::Binomial (n, m)`: entry `m` of the Pascal row after `n`
outer iterations.  The buffer holds 1000 entries, so for `n ≥ 1000` the outer
loop writes past the end of the stack array — undefined behaviour in the
source; the model returns the junk value 0 there and every theorem about
`Binomial` carries the `n < 1000` capacity bound. -/
def Binomial (n m : ℕ) : ℕ := if n < 1000 then binomialRow n m else 0

theorem binomialRow_eq_choose :
    ∀ n j, j ≤ n → binomialRow n j = Nat.choose n j % 2 ^ 64 := by
  intro n
  induction n with
  | zero =>
      intro j hj
      have : j = 0 := Nat.le_zero.mp hj
      subst this
      rfl
  | succ i ih =>
      intro j hj
      by_cases h1 : j = i + 1
      · subst h1
        simp [binomialRow, Nat.choose_self]
      · have hji : j ≤ i := by omega
        by_cases h2 : 1 ≤ j
        · have hstep : binomialRow (i + 1) j
              = (binomialRow i j + binomialRow i (j - 1)) % 2 ^ 64 := by
            simp only [binomialRow]
            rw [if_neg h1, if_pos ⟨h2, hji⟩]
          rw [hstep, ih j hji, ih (j - 1) (by omega)]
          rw [← Nat.add_mod]
          obtain ⟨k, rfl⟩ : ∃ k, j = k + 1 := ⟨j - 1, by omega⟩
          rw [Nat.choose_succ_succ]
          simp [Nat.add_comm]
        · have hj0 : j = 0 := by omega
          subst hj0
          have hstep : binomialRow (i + 1) 0 = binomialRow i 0 := by
            simp only [binomialRow]
            rw [if_neg h1, if_neg (by omega)]
          rw [hstep, ih 0 (Nat.zero_le i)]
          simp

theorem Binomial_eq_choose (n m : ℕ) (h : m ≤ n) (hcap : n < 1000) :
    Binomial n m = Nat.choose n m % 2 ^ 64 := by
  rw [Binomial, if_pos hcap]
  exact binomialRow_eq_choose n m h

/-- Below the capacity bound and below the `unsigned long` range the source's
Pascal row is exact. -/
theorem Binomial_eq_choose_exact (n m : ℕ) (h : m ≤ n) (hcap : n < 1000)
    (hsm : Nat.choose n m < 2 ^ 64) : Binomial n m = Nat.choose n m := by
  rw [Binomial_eq_choose n m h hcap]
  exact Nat.mod_eq_of_lt hsm

/-- `CFreeFormDefBox::GetBernstein` (grid_movement_structure.cpp:6302): the
Bernstein basis value with the boundary special cases of the source (`val_i` and
`val_n` are C++ `short`, hence `ℤ`; the `pow` exponents are nonnegative at every
call site, encoded by `toNat`). -/
def GetBernstein (val_n val_i : ℤ) (val_t : ℚ) : ℚ :=
  if val_n < val_i then 0
  else if val_i = 0 then
    (if val_t = 0 then 1
     else if val_t = 1 then 0
     else (Binomial val_n.toNat val_i.toNat : ℚ) * val_t ^ val_i.toNat *
       (1 - val_t) ^ (val_n - val_i).toNat)
  else if val_i = val_n then
    (if val_t = 0 then 0
     else if val_t = 1 then 1
     else val_t ^ val_n.toNat)
  else (Binomial val_n.toNat val_i.toNat : ℚ) * val_t ^ val_i.toNat *
    (1 - val_t) ^ (val_n - val_i).toNat

theorem getBernstein_formula (n i : ℕ) (t : ℚ) (hin : i ≤ n) (ht0 : t ≠ 0) (ht1 : t ≠ 1)
    (hcap : n < 1000) (hsm : Nat.choose n i < 2 ^ 64) :
    GetBernstein (n : ℤ) (i : ℤ) t = (Nat.choose n i : ℚ) * t ^ i * (1 - t) ^ (n - i) := by
  have hnotlt : ¬ ((n : ℤ) < (i : ℤ)) := by exact_mod_cast not_lt.mpr hin
  have htn : ((n : ℤ)).toNat = n := Int.toNat_natCast n
  have hti : ((i : ℤ)).toNat = i := Int.toNat_natCast i
  have htsub : ((n : ℤ) - (i : ℤ)).toNat = n - i := by omega
  by_cases hi0 : i = 0
  · subst hi0
    rw [GetBernstein, if_neg hnotlt, if_pos (by norm_num), if_neg ht0, if_neg ht1]
    rw [htn, hti, htsub]
    rw [Binomial_eq_choose_exact n 0 (Nat.zero_le n) hcap hsm]
  · by_cases hin2 : i = n
    · subst hin2
      rw [GetBernstein, if_neg hnotlt]
      rw [if_neg (by exact_mod_cast hi0), if_pos rfl]
      rw [if_neg ht0, if_neg ht1]
      rw [htn, Nat.choose_self, Nat.sub_self]
      simp
    · rw [GetBernstein, if_neg hnotlt]
      rw [if_neg (by exact_mod_cast hi0), if_neg (by exact_mod_cast hin2)]
      rw [htn, hti, htsub]
      rw [Binomial_eq_choose_exact n i hin hcap hsm]

theorem getBernstein_at_zero (n i : ℕ) :
    GetBernstein (n : ℤ) (i : ℤ) 0 = if i = 0 ∧ i ≤ n then 1 else 0 := by
  by_cases hin : i ≤ n
  · have hnotlt : ¬ ((n : ℤ) < (i : ℤ)) := by exact_mod_cast not_lt.mpr hin
    by_cases hi0 : i = 0
    · subst hi0
      rw [GetBernstein, if_neg hnotlt]
      simp [hin]
    · rw [GetBernstein, if_neg hnotlt, if_neg (by exact_mod_cast hi0)]
      by_cases hin2 : i = n
      · rw [if_pos (by exact_mod_cast hin2)]
        simp [hi0]
      · rw [if_neg (by exact_mod_cast hin2)]
        have hz : (0 : ℚ) ^ ((i : ℤ)).toNat = 0 := by
          rw [Int.toNat_natCast]
          exact zero_pow hi0
        simp [hz, hi0]
  · have hlt : ((n : ℤ) < (i : ℤ)) := by exact_mod_cast not_le.mp hin
    rw [GetBernstein, if_pos hlt]
    simp [hin]

theorem getBernstein_at_one (n i : ℕ) :
    GetBernstein (n : ℤ) (i : ℤ) 1 = if i = n ∧ 0 < n then 1 else 0 := by
  by_cases hin : i ≤ n
  · have hnotlt : ¬ ((n : ℤ) < (i : ℤ)) := by exact_mod_cast not_lt.mpr hin
    by_cases hi0 : i = 0
    · subst hi0
      rw [GetBernstein, if_neg hnotlt, if_pos (by norm_num)]
      have hne : ¬ ((0 : ℕ) = n ∧ 0 < n) := by omega
      simp [hne]
    · rw [GetBernstein, if_neg hnotlt, if_neg (by exact_mod_cast hi0)]
      by_cases hin2 : i = n
      · rw [if_pos (by exact_mod_cast hin2)]
        have hn0 : 0 < n := by omega
        simp [hin2, hn0]
      · rw [if_neg (by exact_mod_cast hin2)]
        have hpos : n - i ≠ 0 := by omega
        have hz : ((1 : ℚ) - 1) ^ ((n : ℤ) - (i : ℤ)).toNat = 0 := by
          have hsub : ((n : ℤ) - (i : ℤ)).toNat = n - i := by omega
          rw [hsub]
          simp [hpos]
        rw [hz, mul_zero]
        simp [hin2]
  · have hlt : ((n : ℤ) < (i : ℤ)) := by exact_mod_cast not_le.mp hin
    rw [GetBernstein, if_pos hlt]
    have hne : i ≠ n := by omega
    simp [hne]

theorem getBernstein_nonneg (n i : ℤ) (t : ℚ) (h0 : 0 ≤ t) (h1 : t ≤ 1) :
    0 ≤ GetBernstein n i t := by
  rw [GetBernstein]
  have h1t : 0 ≤ 1 - t := by linarith
  by_cases ha : n < i
  · simp [ha]
  · rw [if_neg ha]
    by_cases hb : i = 0
    · rw [if_pos hb]
      by_cases hc : t = 0
      · simp [hc]
      · rw [if_neg hc]
        by_cases hd : t = 1
        · simp [hd]
        · rw [if_neg hd]
          positivity
    · rw [if_neg hb]
      by_cases he : i = n
      · rw [if_pos he]
        by_cases hc : t = 0
        · simp [hc]
        · rw [if_neg hc]
          by_cases hd : t = 1
          · simp [hd]
          · rw [if_neg hd]
            positivity
      · rw [if_neg he]
        positivity

/-- C4, counterexample: at degree n = 0 the boundary special cases degenerate:
`GetBernstein(0,0,1) = 0` (the `val_i == 0` branch wins over `val_i == val_n`), so
the partition of unity fails at (n,t) = (0,1) and the exact boundary identities
`B_n^n(1) = 1` and `B_n^n(0) = 0` both fail at n = 0. -/
theorem C4_counterexample :
    GetBernstein 0 0 1 = 0 ∧
    (∑ i in Finset.range 1, GetBernstein 0 (i : ℤ) 1) = 0 ∧
    GetBernstein 0 0 0 = 1 ∧
    ¬ ((∑ i in Finset.range 1, GetBernstein 0 (i : ℤ) 1) = 1 ∧
       GetBernstein 0 0 1 = 1 ∧ GetBernstein 0 0 0 = 0) := by
  have h1 : GetBernstein 0 0 1 = 0 := by norm_num [GetBernstein]
  have h0 : GetBernstein 0 0 0 = 1 := by norm_num [GetBernstein]
  have hsum : (∑ i in Finset.range 1, GetBernstein 0 (i : ℤ) 1) = 0 := by
    rw [Finset.sum_range_one]
    exact_mod_cast h1
  exact ⟨h1, hsum, h0, fun h => by rw [hsum] at h; exact absurd h.1 (by norm_num)⟩

/-- C4, amended: for every degree n ≥ 1 that stays below the 1000-entry buffer
bound and whose binomial coefficients all fit an `unsigned long` (no modulo-2^64
wrap of the Pascal row, which restricts n to at most 67), and every t ∈ [0,1],
the `GetBernstein` values satisfy the partition of unity exactly over `ℚ`, are
all nonnegative, and the four boundary identities hold exactly.  (At n = 0 the
identities degenerate, see the counterexample; from n ≈ 68 the row wraps and
the partition of unity is lost in the program.) -/
theorem C4_amended (n : ℕ) (hn : 1 ≤ n) (hcap : n < 1000)
    (hsm : ∀ i ∈ Finset.range (n + 1), Nat.choose n i < 2 ^ 64)
    (t : ℚ) (h0 : 0 ≤ t) (h1 : t ≤ 1) :
    (∑ i in Finset.range (n + 1), GetBernstein (n : ℤ) (i : ℤ) t) = 1 ∧
    (∀ i : ℕ, i ∈ Finset.range (n + 1) → 0 ≤ GetBernstein (n : ℤ) (i : ℤ) t) ∧
    GetBernstein (n : ℤ) 0 0 = 1 ∧
    GetBernstein (n : ℤ) (n : ℤ) 1 = 1 ∧
    GetBernstein (n : ℤ) 0 1 = 0 ∧
    GetBernstein (n : ℤ) (n : ℤ) 0 = 0 := by
  refine ⟨?_, fun i _ => getBernstein_nonneg _ _ t h0 h1, ?_, ?_, ?_, ?_⟩
  · by_cases ht0 : t = 0
    · subst ht0
      rw [Finset.sum_congr rfl (fun i _ => getBernstein_at_zero n i)]
      rw [Finset.sum_eq_single 0]
      · simp
      · intro i _ hne
        simp [hne]
      · intro h
        exact absurd (Finset.mem_range.mpr (by omega)) h
    · by_cases ht1 : t = 1
      · subst ht1
        rw [Finset.sum_congr rfl (fun i _ => getBernstein_at_one n i)]
        rw [Finset.sum_eq_single n]
        · simp [hn]
          omega
        · intro i _ hne
          simp [hne]
        · intro h
          exact absurd (Finset.mem_range.mpr (by omega)) h
      · rw [Finset.sum_congr rfl (fun i hi =>
          getBernstein_formula n i t (Nat.lt_succ_iff.mp (Finset.mem_range.mp hi)) ht0 ht1
            hcap (hsm i hi))]
        have hone : t + (1 - t) = 1 := by ring
        calc ∑ i in Finset.range (n + 1), (Nat.choose n i : ℚ) * t ^ i * (1 - t) ^ (n - i)
            = ∑ i in Finset.range (n + 1), t ^ i * (1 - t) ^ (n - i) * (Nat.choose n i : ℚ) := by
              refine Finset.sum_congr rfl ?_
              intro i _
              ring
          _ = (t + (1 - t)) ^ n := (add_pow t (1 - t) n).symm
          _ = 1 := by rw [hone, one_pow]
  · have h := getBernstein_at_zero n 0
    simpa using h
  · have h := getBernstein_at_one n n
    have hp : 0 < n := by omega
    simpa [hp] using h
  · have h := getBernstein_at_one n 0
    have hne : ¬ ((0 : ℕ) = n ∧ 0 < n) := by omega
    rw [if_neg hne] at h
    simpa using h
  · have h := getBernstein_at_zero n n
    have hne : ¬ (n = 0 ∧ n ≤ n) := by omega
    rw [if_neg hne] at h
    simpa using h

/-- Witness for `C4_amended` at degree 2 and t = 1/3. -/
theorem C4_amended_witness :
    ((1 : ℕ) ≤ 2 ∧ (2 : ℕ) < 1000 ∧
     (∀ i ∈ Finset.range (2 + 1), Nat.choose 2 i < 2 ^ 64) ∧
     (0 : ℚ) ≤ 1/3 ∧ (1/3 : ℚ) ≤ 1) ∧
    ((∑ i in Finset.range (2 + 1), GetBernstein ((2 : ℕ) : ℤ) (i : ℤ) (1/3)) = 1 ∧
     (∀ i : ℕ, i ∈ Finset.range (2 + 1) →
        0 ≤ GetBernstein ((2 : ℕ) : ℤ) (i : ℤ) (1/3)) ∧
     GetBernstein ((2 : ℕ) : ℤ) 0 0 = 1 ∧
     GetBernstein ((2 : ℕ) : ℤ) ((2 : ℕ) : ℤ) 1 = 1 ∧
     GetBernstein ((2 : ℕ) : ℤ) 0 1 = 0 ∧
     GetBernstein ((2 : ℕ) : ℤ) ((2 : ℕ) : ℤ) 0 = 0) :=
  ⟨⟨by norm_num, by norm_num, by decide, by norm_num, by norm_num⟩,
   C4_amended 2 (by norm_num) (by norm_num) (by decide) (1/3) (by norm_num) (by norm_num)⟩

/-- `CFreeFormDefBox::GetBernsteinDerivative` (grid_movement_structure.cpp:6321):
order-th derivative of the Bernstein basis, by the recursion of the source
(including its `val_n == 0` branch returning `val_t`). -/
def GetBernsteinDerivative (val_n val_i : ℤ) (val_t : ℚ) : ℕ → ℚ
  | 0 => GetBernstein val_n val_i val_t
  | o + 1 =>
      if val_i = 0 then (val_n : ℚ) * (-(GetBernsteinDerivative (val_n - 1) val_i val_t o))
      else if val_n = 0 then val_t
      else (val_n : ℚ) * (GetBernsteinDerivative (val_n - 1) (val_i - 1) val_t o
        - GetBernsteinDerivative (val_n - 1) val_i val_t o)

/-- A free-form-deformation box: degree triple and the Cartesian control-point
lattice `Coord_Control_Points[i][j][k][dim]` (the box is always 3D: `nDim = 3`
in the constructor, grid_movement_structure.cpp:5988). -/
structure FFDBox where
  lDegree : ℕ
  mDegree : ℕ
  nDegree : ℕ
  cp : ℕ → ℕ → ℕ → ℕ → ℚ

/-- The degree triple `lmn` as the derivative routines index it. -/
def FFDBox.lmn (box : FFDBox) : ℕ → ℕ := fun d =>
  if d = 0 then box.lDegree else if d = 1 then box.mDegree else box.nDegree

/-- `CFreeFormDefBox::EvalCartesianCoord` (grid_movement_structure.cpp:6283),
one spatial component: the trivariate Bernstein tensor-product sum. -/
def EvalCartesianCoord (box : FFDBox) (uvw : ℕ → ℚ) (dim : ℕ) : ℚ :=
  ∑ i in Finset.range (box.lDegree + 1), ∑ j in Finset.range (box.mDegree + 1),
    ∑ k in Finset.range (box.nDegree + 1),
      box.cp i j k dim * GetBernstein (box.lDegree : ℤ) (i : ℤ) (uvw 0)
        * GetBernstein (box.mDegree : ℤ) (j : ℤ) (uvw 1)
        * GetBernstein (box.nDegree : ℤ) (k : ℤ) (uvw 2)

/-- `CFreeFormDefBox::GetDerivative1` (grid_movement_structure.cpp:6646): the
first parametric derivative of one tensor-product basis term along axis
`val_diff`, the other axes contributing their plain basis values. -/
def GetDerivative1 (box : FFDBox) (uvw : ℕ → ℚ) (val_diff : ℕ) (ijk : ℕ → ℕ) : ℚ :=
  GetBernsteinDerivative (box.lmn val_diff : ℤ) (ijk val_diff : ℤ) (uvw val_diff) 1 *
    ∏ d in (Finset.range 3).filter (· ≠ val_diff),
      GetBernstein (box.lmn d : ℤ) (ijk d : ℤ) (uvw d)

/-- `CFreeFormDefBox::GetDerivative2` (grid_movement_structure.cpp:6657): note
the returned value is `2 * (F_dim(uvw) - xyz_dim)` — the factor 2 is part of this
routine. -/
def GetDerivative2 (box : FFDBox) (uvw : ℕ → ℚ) (dim : ℕ) (xyz : ℕ → ℚ) : ℚ :=
  2 * ((∑ i in Finset.range (box.lDegree + 1), ∑ j in Finset.range (box.mDegree + 1),
    ∑ k in Finset.range (box.nDegree + 1),
      box.cp i j k dim * GetBernstein (box.lDegree : ℤ) (i : ℤ) (uvw 0)
        * GetBernstein (box.mDegree : ℤ) (j : ℤ) (uvw 1)
        * GetBernstein (box.nDegree : ℤ) (k : ℤ) (uvw 2)) - xyz dim)

/-- `CFreeFormDefBox::GetDerivative3` (grid_movement_structure.cpp:6674):
`∂F_dim/∂p_diff`, summing `GetDerivative1` against the control net. -/
def GetDerivative3 (box : FFDBox) (uvw : ℕ → ℚ) (dim diff_this : ℕ) : ℚ :=
  ∑ i in Finset.range (box.lDegree + 1), ∑ j in Finset.range (box.mDegree + 1),
    ∑ k in Finset.range (box.nDegree + 1),
      box.cp i j k dim * GetDerivative1 box uvw diff_this
        (fun d => if d = 0 then i else if d = 1 then j else k)

/-- `CFreeFormDefBox::GetDerivative4` (grid_movement_structure.cpp:6689): a
second parametric derivative of one basis term: the pure second derivative on a
repeated axis, or the product of two first derivatives on distinct axes. -/
def GetDerivative4 (box : FFDBox) (uvw : ℕ → ℚ) (val_diff val_diff2 : ℕ)
    (ijk : ℕ → ℕ) : ℚ :=
  if val_diff = val_diff2 then
    GetBernsteinDerivative (box.lmn val_diff : ℤ) (ijk val_diff : ℤ) (uvw val_diff) 2 *
      ∏ d in (Finset.range 3).filter (· ≠ val_diff),
        GetBernstein (box.lmn d : ℤ) (ijk d : ℤ) (uvw d)
  else
    GetBernsteinDerivative (box.lmn val_diff : ℤ) (ijk val_diff : ℤ) (uvw val_diff) 1 *
    GetBernsteinDerivative (box.lmn val_diff2 : ℤ) (ijk val_diff2 : ℤ) (uvw val_diff2) 1 *
      ∏ d in (Finset.range 3).filter (fun d => d ≠ val_diff ∧ d ≠ val_diff2),
        GetBernstein (box.lmn d : ℤ) (ijk d : ℤ) (uvw d)

/-- `CFreeFormDefBox::GetDerivative5` (grid_movement_structure.cpp:6711):
`∂²F_dim/∂p_diff ∂p_diff2`, summing `GetDerivative4` against the control net. -/
def GetDerivative5 (box : FFDBox) (uvw : ℕ → ℚ) (dim diff_this diff_this_also : ℕ) : ℚ :=
  ∑ i in Finset.range (box.lDegree + 1), ∑ j in Finset.range (box.mDegree + 1),
    ∑ k in Finset.range (box.nDegree + 1),
      box.cp i j k dim * GetDerivative4 box uvw diff_this diff_this_also
        (fun d => if d = 0 then i else if d = 1 then j else k)

/-- `CFreeFormDefBox::GetFFDHessian` (grid_movement_structure.cpp:6379): the six
upper-triangle entries (a ≤ b) accumulate
`2*D3(dim,a)*D3(dim,b) + D2(dim)*D5(dim,a,b)` over the three spatial dimensions,
and the lower triangle is mirrored from the upper. -/
def GetFFDHessian (box : FFDBox) (uvw xyz : ℕ → ℚ) : ℕ → ℕ → ℚ :=
  let upper := fun a b => ∑ d in Finset.range 3,
    (2 * GetDerivative3 box uvw d a * GetDerivative3 box uvw d b +
     GetDerivative2 box uvw d xyz * GetDerivative5 box uvw d a b)
  fun a b => if a ≤ b then upper a b else upper b a

/-- The Hessian entry as the spec words it: `2·(∂F/∂p_i)·(∂F/∂p_j) +
(F−xyz)·∂²F/∂p_i∂p_j` summed over the spatial dimensions, upper triangle
mirrored.  This definition follows the spec text (for comparison against
`GetFFDHessian`, whose second term carries a factor 2 inside `GetDerivative2`). -/
def specHessianEntry (box : FFDBox) (uvw xyz : ℕ → ℚ) : ℕ → ℕ → ℚ :=
  let upper := fun a b => ∑ d in Finset.range 3,
    (2 * GetDerivative3 box uvw d a * GetDerivative3 box uvw d b +
     (EvalCartesianCoord box uvw d - xyz d) * GetDerivative5 box uvw d a b)
  fun a b => if a ≤ b then upper a b else upper b a

theorem getDerivative2_eq (box : FFDBox) (uvw : ℕ → ℚ) (dim : ℕ) (xyz : ℕ → ℚ) :
    GetDerivative2 box uvw dim xyz = 2 * (EvalCartesianCoord box uvw dim - xyz dim) := rfl

/-- A degree-(2,0,0) FFD box whose only nonzero control-point coordinate is the
x component of lattice node (2,0,0). -/
def boxC2 : FFDBox :=
  ⟨2, 0, 0, fun i j k d => if i = 2 ∧ j = 0 ∧ k = 0 ∧ d = 0 then 1 else 0⟩

theorem filter_ne_zero_range3 : (Finset.range 3).filter (· ≠ 0) = {1, 2} := by decide

/-- C2, counterexample: at (u,v,w) = (1/2,1/2,1/2) and xyz = 0 on `boxC2`, the
code computes Hessian entry (0,0) = 3 (its second term is
`2·(F−xyz)·∂²F = 2·(1/4)·2 = 1` on top of `2·(∂F/∂u)² = 2`), while the formula of
the claim, with `(F−xyz)·∂²F` un-doubled, gives 5/2: the claimed equality fails. -/
theorem C2_counterexample :
    GetFFDHessian boxC2 (fun _ => 1/2) (fun _ => 0) 0 0 = 3 ∧
    specHessianEntry boxC2 (fun _ => 1/2) (fun _ => 0) 0 0 = 5/2 ∧
    GetFFDHessian boxC2 (fun _ => 1/2) (fun _ => 0) 0 0
      ≠ specHessianEntry boxC2 (fun _ => 1/2) (fun _ => 0) 0 0 := by
  have hB00 : GetBernstein 0 0 (1/2 : ℚ) = 1 := by
    norm_num [GetBernstein, Binomial, binomialRow]
  have hB01 : GetBernstein 0 1 (1/2 : ℚ) = 0 := by norm_num [GetBernstein]
  have hB02 : GetBernstein 0 2 (1/2 : ℚ) = 0 := by norm_num [GetBernstein]
  have hB10 : GetBernstein 1 0 (1/2 : ℚ) = 1/2 := by
    norm_num [GetBernstein, Binomial, binomialRow]
  have hB11 : GetBernstein 1 1 (1/2 : ℚ) = 1/2 := by norm_num [GetBernstein]
  have hB12 : GetBernstein 1 2 (1/2 : ℚ) = 0 := by norm_num [GetBernstein]
  have hB22 : GetBernstein 2 2 (1/2 : ℚ) = 1/4 := by
    norm_num [GetBernstein, show Int.toNat 2 = 2 from rfl]
  have hGBD1 : ∀ i : ℕ, i ≤ 2 → GetBernsteinDerivative 2 (i : ℤ) (1/2 : ℚ) 1 =
      (if i = 0 then -1 else if i = 1 then 0 else 1) := by
    intro i hi
    match i with
    | 0 => norm_num [GetBernsteinDerivative, hB10]
    | 1 => norm_num [GetBernsteinDerivative, hB10, hB11]
    | 2 => norm_num [GetBernsteinDerivative, hB11, hB12]
  have hGBD2i : ∀ i : ℕ, i ≤ 2 → GetBernsteinDerivative 2 (i : ℤ) (1/2 : ℚ) 2 =
      (if i = 0 then 2 else if i = 1 then -4 else 2) := by
    intro i hi
    match i with
    | 0 => norm_num [GetBernsteinDerivative, hB00]
    | 1 => norm_num [GetBernsteinDerivative, hB00, hB01]
    | 2 => norm_num [GetBernsteinDerivative, hB00, hB01, hB02]
  have hD1 : ∀ i : ℕ, GetDerivative1 boxC2 (fun _ => (1/2 : ℚ)) 0
      (fun d => if d = 0 then i else if d = 1 then 0 else 0)
      = GetBernsteinDerivative 2 (i : ℤ) (1/2 : ℚ) 1 := by
    intro i
    rw [GetDerivative1, filter_ne_zero_range3]
    rw [Finset.prod_insert (by decide), Finset.prod_singleton]
    norm_num [FFDBox.lmn, boxC2, hB00]
  have hD4 : ∀ i : ℕ, GetDerivative4 boxC2 (fun _ => (1/2 : ℚ)) 0 0
      (fun d => if d = 0 then i else if d = 1 then 0 else 0)
      = GetBernsteinDerivative 2 (i : ℤ) (1/2 : ℚ) 2 := by
    intro i
    rw [GetDerivative4, if_pos rfl, filter_ne_zero_range3]
    rw [Finset.prod_insert (by decide), Finset.prod_singleton]
    norm_num [FFDBox.lmn, boxC2, hB00]
  have hD3 : ∀ dim : ℕ, GetDerivative3 boxC2 (fun _ => (1/2 : ℚ)) dim 0
      = (if dim = 0 then 1 else 0) := by
    intro dim
    rw [GetDerivative3, show boxC2.lDegree = 2 from rfl, show boxC2.mDegree = 0 from rfl,
      show boxC2.nDegree = 0 from rfl]
    simp only [Finset.sum_range_one, Finset.sum_range_succ, Finset.sum_range_zero]
    rw [hD1 0, hD1 1, hD1 2, hGBD1 0 (by omega), hGBD1 1 (by omega), hGBD1 2 (by omega)]
    by_cases hd : dim = 0 <;> norm_num [boxC2, hd]
  have hD5 : ∀ dim : ℕ, GetDerivative5 boxC2 (fun _ => (1/2 : ℚ)) dim 0 0
      = (if dim = 0 then 2 else 0) := by
    intro dim
    rw [GetDerivative5, show boxC2.lDegree = 2 from rfl, show boxC2.mDegree = 0 from rfl,
      show boxC2.nDegree = 0 from rfl]
    simp only [Finset.sum_range_one, Finset.sum_range_succ, Finset.sum_range_zero]
    rw [hD4 0, hD4 1, hD4 2, hGBD2i 0 (by omega), hGBD2i 1 (by omega),
      hGBD2i 2 (by omega)]
    by_cases hd : dim = 0 <;> norm_num [boxC2, hd]
  have hF : ∀ dim : ℕ, EvalCartesianCoord boxC2 (fun _ => (1/2 : ℚ)) dim
      = (if dim = 0 then 1/4 else 0) := by
    intro dim
    rw [EvalCartesianCoord, show boxC2.lDegree = 2 from rfl, show boxC2.mDegree = 0 from rfl,
      show boxC2.nDegree = 0 from rfl]
    simp only [Finset.sum_range_one, Finset.sum_range_succ, Finset.sum_range_zero]
    by_cases hd : dim = 0 <;> norm_num [boxC2, hd, hB22, hB00]
  have hD2 : ∀ dim : ℕ, GetDerivative2 boxC2 (fun _ => (1/2 : ℚ)) dim (fun _ => 0)
      = (if dim = 0 then 1/2 else 0) := by
    intro dim
    rw [getDerivative2_eq, hF]
    by_cases hd : dim = 0 <;> norm_num [hd]
  have hA : GetFFDHessian boxC2 (fun _ => 1/2) (fun _ => 0) 0 0 = 3 := by
    rw [GetFFDHessian]
    simp only [le_refl, if_pos]
    simp only [Finset.sum_range_succ, Finset.sum_range_zero]
    rw [hD3 0, hD3 1, hD3 2, hD2 0, hD2 1, hD2 2, hD5 0, hD5 1, hD5 2]
    norm_num
  have hB : specHessianEntry boxC2 (fun _ => 1/2) (fun _ => 0) 0 0 = 5/2 := by
    rw [specHessianEntry]
    simp only [le_refl, if_pos]
    simp only [Finset.sum_range_succ, Finset.sum_range_zero]
    rw [hD3 0, hD3 1, hD3 2, hF 0, hF 1, hF 2, hD5 0, hD5 1, hD5 2]
    norm_num
  refine ⟨hA, hB, ?_⟩
  rw [hA, hB]
  norm_num

/-- C2, amended: for every box, parametric point, target point and axis pair
a ≤ b, the Hessian entry computed by `GetFFDHessian` equals
`2·(∂F/∂p_a)·(∂F/∂p_b) + 2·(F−xyz)·∂²F/∂p_a∂p_b` summed over the three spatial
dimensions (the FFD box is always 3D), with only the upper triangle computed and
the lower triangle mirrored from it. -/
theorem C2_amended (box : FFDBox) (uvw xyz : ℕ → ℚ) (a b : ℕ) (hab : a ≤ b) :
    GetFFDHessian box uvw xyz a b
      = ∑ d in Finset.range 3,
          (2 * GetDerivative3 box uvw d a * GetDerivative3 box uvw d b +
           2 * (EvalCartesianCoord box uvw d - xyz d) * GetDerivative5 box uvw d a b) ∧
    GetFFDHessian box uvw xyz b a = GetFFDHessian box uvw xyz a b := by
  constructor
  · simp only [GetFFDHessian, if_pos hab]
    refine Finset.sum_congr rfl fun d _ => ?_
    rw [getDerivative2_eq]
  · by_cases h : b ≤ a
    · have hba : a = b := le_antisymm hab h
      subst hba
      rfl
    · simp only [GetFFDHessian, if_pos hab, if_neg h]

/-- Witness for `C2_amended` on `boxC2` at the axis pair (0, 1). -/
theorem C2_amended_witness :
    (0 : ℕ) ≤ 1 ∧
    (GetFFDHessian boxC2 (fun _ => 1/2) (fun _ => 0) 0 1
      = ∑ d in Finset.range 3,
          (2 * GetDerivative3 boxC2 (fun _ => 1/2) d 0 * GetDerivative3 boxC2 (fun _ => 1/2) d 1 +
           2 * (EvalCartesianCoord boxC2 (fun _ => 1/2) d - (fun _ => (0 : ℚ)) d) *
             GetDerivative5 boxC2 (fun _ => 1/2) d 0 1) ∧
     GetFFDHessian boxC2 (fun _ => 1/2) (fun _ => 0) 1 0
      = GetFFDHessian boxC2 (fun _ => 1/2) (fun _ => 0) 0 1) :=
  ⟨Nat.zero_le 1, C2_amended boxC2 (fun _ => 1/2) (fun _ => 0) 0 1 (Nat.zero_le 1)⟩

/-- `CFreeFormDefBox::GetFFDGradient` (grid_movement_structure.cpp:6360):
`Gradient[j] = Σ_i GetDerivative2(i) * GetDerivative3(i,j)` over the three
spatial dimensions. -/
def GetFFDGradient (box : FFDBox) (val_coord xyz : ℕ → ℚ) : ℕ → ℚ := fun j =>
  ∑ i in Finset.range 3, GetDerivative2 box val_coord i xyz * GetDerivative3 box val_coord i j

/-- A parametric point as the iterative inversion holds it (`ParamCoord[3]`). -/
def toFn (p : ℚ × ℚ × ℚ) : ℕ → ℚ := fun d =>
  if d = 0 then p.1 else if d = 1 then p.2.1 else p.2.2

/-- One Newton solve of `GetParametricCoord_Iterative`
(grid_movement_structure.cpp:6447-6483): `IndepTerm = -Gradient`, the 3×3
adjugate of the Hessian, its determinant, and — when the determinant is nonzero
— the explicitly inverted step `AdjHessian·IndepTerm/Determinant`; when the
determinant is zero the un-inverted gradient step is kept. -/
def ffdNewtonStep (box : FFDBox) (xyz : ℕ → ℚ) (p : ℚ × ℚ × ℚ) : ℚ × ℚ × ℚ :=
  let pc := toFn p
  let g := GetFFDGradient box pc xyz
  let I0 := -(g 0)
  let I1 := -(g 1)
  let I2 := -(g 2)
  let H := GetFFDHessian box pc xyz
  let A00 := H 1 1 * H 2 2 - H 1 2 * H 2 1
  let A01 := H 0 2 * H 2 1 - H 0 1 * H 2 2
  let A02 := H 0 1 * H 1 2 - H 0 2 * H 1 1
  let A10 := H 1 2 * H 2 0 - H 1 0 * H 2 2
  let A11 := H 0 0 * H 2 2 - H 0 2 * H 2 0
  let A12 := H 0 2 * H 1 0 - H 0 0 * H 1 2
  let A20 := H 1 0 * H 2 1 - H 1 1 * H 2 0
  let A21 := H 0 1 * H 2 0 - H 0 0 * H 2 1
  let A22 := H 0 0 * H 1 1 - H 0 1 * H 1 0
  let det := H 0 0 * A00 + H 0 1 * A10 + H 0 2 * A20
  if det ≠ 0 then
    (A00 * I0 / det + A01 * I1 / det + A02 * I2 / det,
     A10 * I0 / det + A11 * I1 / det + A12 * I2 / det,
     A20 * I0 / det + A21 * I1 / det + A22 * I2 / det)
  else (I0, I1, I2)

/-- The squared step norm of one Newton solve (the source compares
`NormError = sqrt(ΣΔ²)` against 1.8; over `ℚ` the equivalent comparison is the
squared norm against 1.8² = 81/25, since `sqrt` is strictly monotone on
nonnegatives; `MinNormError` is likewise tracked squared). -/
def ffdNormSq (box : FFDBox) (xyz : ℕ → ℚ) (p : ℚ × ℚ × ℚ) : ℚ :=
  let I := ffdNewtonStep box xyz p
  I.1 * I.1 + I.2.1 * I.2.1 + I.2.2 * I.2.2

/-- The loop state of `GetParametricCoord_Iterative`: the current parametric
point, `SOR_Factor`, the squared `MinNormError`, `RandonCounter` (an
`unsigned short` in the source, so its stored value is always below 65536 and
increments wrap modulo 65536), the cursor into the `rand()` stream, plus three
observers: the number of random restarts performed, whether the stagnation
diagnostic has ever been printed, and how many times it was printed. -/
structure FFDIterState where
  p : ℚ × ℚ × ℚ
  sor : ℚ
  minNormSq : ℚ
  counter : ℕ
  rnd : ℕ
  restarts : ℕ
  diag : Bool
  prints : ℕ

/-- The successive-over-relaxation update of `ParamCoord`
(grid_movement_structure.cpp:6488): `(1-SOR)*p + SOR*(p + Δ)` componentwise. -/
def ffdSORUpdate (box : FFDBox) (xyz : ℕ → ℚ) (s : FFDIterState) : ℚ × ℚ × ℚ :=
  ((1 - s.sor) * s.p.1 + s.sor * (s.p.1 + (ffdNewtonStep box xyz s.p).1),
   (1 - s.sor) * s.p.2.1 + s.sor * (s.p.2.1 + (ffdNewtonStep box xyz s.p).2.1),
   (1 - s.sor) * s.p.2.2 + s.sor * (s.p.2.2 + (ffdNewtonStep box xyz s.p).2.2))

/-- One outer iteration of `GetParametricCoord_Iterative`
(grid_movement_structure.cpp:6443-6518): Newton solve, SOR update of
`ParamCoord`, convergence break (`inr`), squared-norm bookkeeping, and the
stagnation branch: `RandonCounter` — an `unsigned short`, so the increment
wraps modulo 65536 — is incremented; whenever the incremented counter reads
exactly 500 the diagnostic is printed (no restart), otherwise `SOR_Factor`
drops to 0.1 and `ParamCoord` is redrawn from the random stream.  Because of
the wrap the `== 500` suppression recurs every 65536 stagnations. -/
def ffdIterStep (box : FFDBox) (xyz : ℕ → ℚ) (tol : ℚ) (it_max : ℕ)
    (oracle : ℕ → ℚ) (iter : ℕ) (s : FFDIterState) : FFDIterState ⊕ (ℚ × ℚ × ℚ) :=
  if |(ffdNewtonStep box xyz s.p).1| < tol ∧ |(ffdNewtonStep box xyz s.p).2.1| < tol ∧
      |(ffdNewtonStep box xyz s.p).2.2| < tol then
    .inr (ffdSORUpdate box xyz s)
  else if (iter % it_max = 0 ∧ iter ≠ 0) ∨ ffdNormSq box xyz s.p > 81/25 then
    (if (s.counter + 1) % 65536 = 500 then
      .inl { s with
              p := ffdSORUpdate box xyz s
              minNormSq := min (ffdNormSq box xyz s.p) s.minNormSq
              counter := (s.counter + 1) % 65536
              diag := true
              prints := s.prints + 1 }
     else
      .inl { p := (oracle s.rnd, oracle (s.rnd + 1), oracle (s.rnd + 2))
             sor := 1/10
             minNormSq := min (ffdNormSq box xyz s.p) s.minNormSq
             counter := (s.counter + 1) % 65536
             rnd := s.rnd + 3
             restarts := s.restarts + 1
             diag := s.diag
             prints := s.prints })
  else .inl { s with
              p := ffdSORUpdate box xyz s
              minNormSq := min (ffdNormSq box xyz s.p) s.minNormSq }

/-- The outcome of `GetParametricCoord_Iterative`: the returned `ParamCoord`, the
number of outer iterations executed, whether the convergence break was taken, and
the final loop state. -/
structure FFDRun where
  param : ℚ × ℚ × ℚ
  iters : ℕ
  converged : Bool
  state : FFDIterState

/-- The outer iteration loop (`for iter < it_max*Random_Trials`), by remaining
fuel. -/
def ffdLoop (box : FFDBox) (xyz : ℕ → ℚ) (tol : ℚ) (it_max : ℕ) (oracle : ℕ → ℚ) :
    ℕ → ℕ → FFDIterState → FFDRun
  | 0, iter, s => ⟨s.p, iter, false, s⟩
  | fuel + 1, iter, s =>
      match ffdIterStep box xyz tol it_max oracle iter s with
      | .inr pUpd => ⟨pUpd, iter + 1, true, { s with p := pUpd }⟩
      | .inl s2 => ffdLoop box xyz tol it_max oracle fuel (iter + 1) s2

/-- `CFreeFormDefBox::GetParametricCoord_Iterative`
(grid_movement_structure.cpp:6420): run the loop with budget
`it_max * Random_Trials` (`Random_Trials = 500`) from the caller-supplied guess,
`SOR_Factor = 1.0` and `MinNormError = 1E6` (tracked squared). -/
def GetParametricCoord_Iterative (box : FFDBox) (xyz : ℕ → ℚ) (guess : ℚ × ℚ × ℚ)
    (tol : ℚ) (it_max : ℕ) (oracle : ℕ → ℚ) : FFDRun :=
  ffdLoop box xyz tol it_max oracle (it_max * 500) 0 ⟨guess, 1, 10 ^ 12, 0, 0, 0, false, 0⟩

theorem ffdLoop_inl (box : FFDBox) (xyz : ℕ → ℚ) (tol : ℚ) (it_max : ℕ)
    (oracle : ℕ → ℚ) (fuel iter : ℕ) (s s2 : FFDIterState)
    (h : ffdIterStep box xyz tol it_max oracle iter s = .inl s2) :
    ffdLoop box xyz tol it_max oracle (fuel + 1) iter s
      = ffdLoop box xyz tol it_max oracle fuel (iter + 1) s2 := by
  have hunf : ffdLoop box xyz tol it_max oracle (fuel + 1) iter s
      = match ffdIterStep box xyz tol it_max oracle iter s with
        | .inr pUpd => ⟨pUpd, iter + 1, true, { s with p := pUpd }⟩
        | .inl s3 => ffdLoop box xyz tol it_max oracle fuel (iter + 1) s3 := rfl
  rw [hunf, h]

theorem ffdLoop_inr (box : FFDBox) (xyz : ℕ → ℚ) (tol : ℚ) (it_max : ℕ)
    (oracle : ℕ → ℚ) (fuel iter : ℕ) (s : FFDIterState) (pUpd : ℚ × ℚ × ℚ)
    (h : ffdIterStep box xyz tol it_max oracle iter s = .inr pUpd) :
    ffdLoop box xyz tol it_max oracle (fuel + 1) iter s
      = ⟨pUpd, iter + 1, true, { s with p := pUpd }⟩ := by
  have hunf : ffdLoop box xyz tol it_max oracle (fuel + 1) iter s
      = match ffdIterStep box xyz tol it_max oracle iter s with
        | .inr q => ⟨q, iter + 1, true, { s with p := q }⟩
        | .inl s3 => ffdLoop box xyz tol it_max oracle fuel (iter + 1) s3 := rfl
  rw [hunf, h]

theorem ffdIterStep_inl_inv (box : FFDBox) (xyz : ℕ → ℚ) (tol : ℚ) (it_max : ℕ)
    (oracle : ℕ → ℚ) (iter : ℕ) (s s2 : FFDIterState)
    (hstep : ffdIterStep box xyz tol it_max oracle iter s = .inl s2) :
    ((s.counter = (s.restarts + s.prints) % 65536 →
      s2.counter = (s2.restarts + s2.prints) % 65536)) ∧
    ((s.diag = true ↔ 1 ≤ s.prints) → (s2.diag = true ↔ 1 ≤ s2.prints)) := by
  rw [ffdIterStep] at hstep
  by_cases hconv : |(ffdNewtonStep box xyz s.p).1| < tol ∧
      |(ffdNewtonStep box xyz s.p).2.1| < tol ∧ |(ffdNewtonStep box xyz s.p).2.2| < tol
  · rw [if_pos hconv] at hstep
    exact absurd hstep (by simp)
  · rw [if_neg hconv] at hstep
    by_cases hstag : (iter % it_max = 0 ∧ iter ≠ 0) ∨ ffdNormSq box xyz s.p > 81/25
    · rw [if_pos hstag] at hstep
      by_cases hc5 : (s.counter + 1) % 65536 = 500
      · rw [if_pos hc5] at hstep
        simp only [Sum.inl.injEq] at hstep
        subst hstep
        refine ⟨?_, ?_⟩
        · intro hinv
          show (s.counter + 1) % 65536 = (s.restarts + (s.prints + 1)) % 65536
          omega
        · intro _
          show (true = true ↔ 1 ≤ s.prints + 1)
          constructor
          · intro _
            omega
          · intro _
            rfl
      · rw [if_neg hc5] at hstep
        simp only [Sum.inl.injEq] at hstep
        subst hstep
        refine ⟨?_, ?_⟩
        · intro hinv
          show (s.counter + 1) % 65536 = (s.restarts + 1 + s.prints) % 65536
          omega
        · intro hd
          show (s.diag = true ↔ 1 ≤ s.prints)
          exact hd
    · rw [if_neg hstag] at hstep
      simp only [Sum.inl.injEq] at hstep
      subst hstep
      exact ⟨fun h => h, fun h => h⟩

theorem ffdLoop_props (box : FFDBox) (xyz : ℕ → ℚ) (tol : ℚ) (it_max : ℕ)
    (oracle : ℕ → ℚ) :
    ∀ (fuel iter : ℕ) (s : FFDIterState),
      (s.counter = (s.restarts + s.prints) % 65536) →
      (s.diag = true ↔ 1 ≤ s.prints) →
      (ffdLoop box xyz tol it_max oracle fuel iter s).iters ≤ iter + fuel ∧
      ((ffdLoop box xyz tol it_max oracle fuel iter s).state.counter
        = ((ffdLoop box xyz tol it_max oracle fuel iter s).state.restarts +
           (ffdLoop box xyz tol it_max oracle fuel iter s).state.prints) % 65536) ∧
      ((ffdLoop box xyz tol it_max oracle fuel iter s).state.diag = true ↔
        1 ≤ (ffdLoop box xyz tol it_max oracle fuel iter s).state.prints) ∧
      ((ffdLoop box xyz tol it_max oracle fuel iter s).converged = false →
        (ffdLoop box xyz tol it_max oracle fuel iter s).param
          = (ffdLoop box xyz tol it_max oracle fuel iter s).state.p) := by
  intro fuel
  induction fuel with
  | zero =>
      intro iter s h1 h2
      exact ⟨le_refl _, h1, h2, fun _ => rfl⟩
  | succ fuel ih =>
      intro iter s h1 h2
      rcases hstep : ffdIterStep box xyz tol it_max oracle iter s with s2 | pUpd
      · have hnext := ffdIterStep_inl_inv box xyz tol it_max oracle iter s s2 hstep
        have hrec := ih (iter + 1) s2 (hnext.1 h1) (hnext.2 h2)
        rw [ffdLoop_inl box xyz tol it_max oracle fuel iter s s2 hstep]
        refine ⟨?_, hrec.2.1, hrec.2.2.1, hrec.2.2.2⟩
        calc (ffdLoop box xyz tol it_max oracle fuel (iter + 1) s2).iters
            ≤ (iter + 1) + fuel := hrec.1
          _ = iter + (fuel + 1) := by omega
      · rw [ffdLoop_inr box xyz tol it_max oracle fuel iter s pUpd hstep]
        refine ⟨?_, h1, h2, ?_⟩
        · show iter + 1 ≤ iter + (fuel + 1)
          omega
        · intro h
          simp at h

/-- C5, amended: the outer loop executes at most `nFFD_Iter * 500` iterations;
on a stagnating, non-converging iteration the routine increments the
`unsigned short` counter `RandonCounter` (wrapping modulo 65536) and restarts
from the next three random draws with the relaxation factor set to 0.1 —
except when the wrapped counter reads exactly 500 (the 500th stagnation, and
again every 65536 stagnations thereafter), where it instead prints the
unknown-point diagnostic and keeps iterating, so restarts resume afterwards and
their total may exceed 500; the wrapped counter always equals the total of
restarts and diagnostic prints modulo 65536; the diagnostic has been printed
iff it was printed at least once; and on a non-converged exit the routine
returns its last computed parametric estimate instead of aborting. -/
theorem C5_amended (box : FFDBox) (xyz : ℕ → ℚ) (guess : ℚ × ℚ × ℚ) (tol : ℚ)
    (it_max : ℕ) (oracle : ℕ → ℚ) (hit : 1 ≤ it_max) :
    (GetParametricCoord_Iterative box xyz guess tol it_max oracle).iters ≤ it_max * 500 ∧
    ((GetParametricCoord_Iterative box xyz guess tol it_max oracle).state.counter
      = ((GetParametricCoord_Iterative box xyz guess tol it_max oracle).state.restarts +
         (GetParametricCoord_Iterative box xyz guess tol it_max oracle).state.prints)
        % 65536) ∧
    ((GetParametricCoord_Iterative box xyz guess tol it_max oracle).state.diag = true ↔
      1 ≤ (GetParametricCoord_Iterative box xyz guess tol it_max oracle).state.prints) ∧
    ((GetParametricCoord_Iterative box xyz guess tol it_max oracle).converged = false →
      (GetParametricCoord_Iterative box xyz guess tol it_max oracle).param
        = (GetParametricCoord_Iterative box xyz guess tol it_max oracle).state.p) ∧
    (∀ (iter : ℕ) (s s2 : FFDIterState),
      ffdIterStep box xyz tol it_max oracle iter s = .inl s2 →
      ((iter % it_max = 0 ∧ iter ≠ 0) ∨ ffdNormSq box xyz s.p > 81/25) →
      ((s.counter + 1) % 65536 ≠ 500 →
        s2.p = (oracle s.rnd, oracle (s.rnd + 1), oracle (s.rnd + 2)) ∧
        s2.sor = 1/10 ∧ s2.restarts = s.restarts + 1 ∧
        s2.counter = (s.counter + 1) % 65536 ∧ s2.prints = s.prints) ∧
      ((s.counter + 1) % 65536 = 500 →
        s2.diag = true ∧ s2.prints = s.prints + 1 ∧ s2.restarts = s.restarts ∧
        s2.sor = s.sor ∧ s2.counter = (s.counter + 1) % 65536)) := by
  have hmain := ffdLoop_props box xyz tol it_max oracle (it_max * 500) 0
    ⟨guess, 1, 10 ^ 12, 0, 0, 0, false, 0⟩ (by norm_num) (by norm_num)
  refine ⟨by simpa [GetParametricCoord_Iterative] using hmain.1,
    hmain.2.1, hmain.2.2.1, hmain.2.2.2, ?_⟩
  intro iter s s2 hstep hstag
  rw [ffdIterStep] at hstep
  by_cases hconv : |(ffdNewtonStep box xyz s.p).1| < tol ∧
      |(ffdNewtonStep box xyz s.p).2.1| < tol ∧ |(ffdNewtonStep box xyz s.p).2.2| < tol
  · rw [if_pos hconv] at hstep
    exact absurd hstep (by simp)
  · rw [if_neg hconv, if_pos hstag] at hstep
    by_cases hc5 : (s.counter + 1) % 65536 = 500
    · rw [if_pos hc5] at hstep
      simp only [Sum.inl.injEq] at hstep
      subst hstep
      exact ⟨fun hne => absurd hc5 hne, fun _ => ⟨rfl, rfl, rfl, rfl, rfl⟩⟩
    · rw [if_neg hc5] at hstep
      simp only [Sum.inl.injEq] at hstep
      subst hstep
      exact ⟨fun _ => ⟨rfl, rfl, rfl, rfl, rfl⟩, fun heq => absurd heq hc5⟩

/-- Witness for `C5_amended` at a concrete box, target and budget. -/
theorem C5_amended_witness :
    (1 : ℕ) ≤ 1 ∧
    ((GetParametricCoord_Iterative boxC2 (fun _ => 0) (0, 0, 0) 1 1 (fun _ => 0)).iters
        ≤ 1 * 500 ∧
     ((GetParametricCoord_Iterative boxC2 (fun _ => 0) (0, 0, 0) 1 1
          (fun _ => 0)).state.counter
       = ((GetParametricCoord_Iterative boxC2 (fun _ => 0) (0, 0, 0) 1 1
            (fun _ => 0)).state.restarts +
          (GetParametricCoord_Iterative boxC2 (fun _ => 0) (0, 0, 0) 1 1
            (fun _ => 0)).state.prints) % 65536) ∧
     ((GetParametricCoord_Iterative boxC2 (fun _ => 0) (0, 0, 0) 1 1 (fun _ => 0)).state.diag
        = true ↔
       1 ≤ (GetParametricCoord_Iterative boxC2 (fun _ => 0) (0, 0, 0) 1 1
          (fun _ => 0)).state.prints) ∧
     ((GetParametricCoord_Iterative boxC2 (fun _ => 0) (0, 0, 0) 1 1
          (fun _ => 0)).converged = false →
       (GetParametricCoord_Iterative boxC2 (fun _ => 0) (0, 0, 0) 1 1 (fun _ => 0)).param
         = (GetParametricCoord_Iterative boxC2 (fun _ => 0) (0, 0, 0) 1 1
              (fun _ => 0)).state.p) ∧
     (∀ (iter : ℕ) (s s2 : FFDIterState),
       ffdIterStep boxC2 (fun _ => 0) 1 1 (fun _ => 0) iter s = .inl s2 →
       ((iter % 1 = 0 ∧ iter ≠ 0) ∨ ffdNormSq boxC2 (fun _ => 0) s.p > 81/25) →
       ((s.counter + 1) % 65536 ≠ 500 →
         s2.p = ((fun _ => (0 : ℚ)) s.rnd, (fun _ => (0 : ℚ)) (s.rnd + 1),
           (fun _ => (0 : ℚ)) (s.rnd + 2)) ∧
         s2.sor = 1/10 ∧ s2.restarts = s.restarts + 1 ∧
         s2.counter = (s.counter + 1) % 65536 ∧ s2.prints = s.prints) ∧
       ((s.counter + 1) % 65536 = 500 →
         s2.diag = true ∧ s2.prints = s.prints + 1 ∧ s2.restarts = s.restarts ∧
         s2.sor = s.sor ∧ s2.counter = (s.counter + 1) % 65536))) :=
  ⟨le_refl 1, C5_amended boxC2 (fun _ => 0) (0, 0, 0) 1 1 (fun _ => 0) (le_refl 1)⟩

/-- A degree-(1,0,0) FFD box whose forward map is `F(u,v,w) = (u, 0, 0)` on the
interior of the parametric domain: the only nonzero control-point coordinate is
the x component of lattice node (1,0,0). -/
def boxC5 : FFDBox :=
  ⟨1, 0, 0, fun i j k d => if i = 1 ∧ j = 0 ∧ k = 0 ∧ d = 0 then 1 else 0⟩

/-- The target Cartesian point (100, 0, 0), far outside the box. -/
def xyzC5 : ℕ → ℚ := fun d => if d = 0 then 100 else 0

theorem bern00 (t : ℚ) (ht0 : t ≠ 0) (ht1 : t ≠ 1) : GetBernstein 0 0 t = 1 := by
  norm_num [GetBernstein, ht0, ht1, Binomial, binomialRow]

theorem bern01 (t : ℚ) : GetBernstein 0 1 t = 0 := by norm_num [GetBernstein]

theorem bern11 (t : ℚ) (ht0 : t ≠ 0) (ht1 : t ≠ 1) : GetBernstein 1 1 t = t := by
  norm_num [GetBernstein, ht0, ht1]

theorem gbd001 (t : ℚ) : GetBernsteinDerivative 0 0 t 1 = 0 := by
  norm_num [GetBernsteinDerivative]

theorem gbd002 (t : ℚ) : GetBernsteinDerivative 0 0 t 2 = 0 := by
  norm_num [GetBernsteinDerivative]

theorem gbd111 (t : ℚ) (ht0 : t ≠ 0) (ht1 : t ≠ 1) :
    GetBernsteinDerivative 1 1 t 1 = 1 := by
  norm_num [GetBernsteinDerivative, bern00 t ht0 ht1, bern01 t]

/-- The source computes the second derivative of `B_1^1` as `-t` (the
`val_n == 0` branch of the recursion returns `val_t`). -/
theorem gbd112 (t : ℚ) : GetBernsteinDerivative 1 1 t 2 = -t := by
  norm_num [GetBernsteinDerivative]

theorem filter_ne_one_range3 : (Finset.range 3).filter (· ≠ 1) = {0, 2} := by decide

theorem filter_ne_two_range3 : (Finset.range 3).filter (· ≠ 2) = {0, 1} := by decide

theorem filter_pair01_range3 :
    (Finset.range 3).filter (fun d => d ≠ 0 ∧ d ≠ 1) = {2} := by decide

theorem filter_pair02_range3 :
    (Finset.range 3).filter (fun d => d ≠ 0 ∧ d ≠ 2) = {1} := by decide

theorem filter_pair12_range3 :
    (Finset.range 3).filter (fun d => d ≠ 1 ∧ d ≠ 2) = {0} := by decide

theorem boxC5_D1_j0 (u : ℚ) (hu0 : u ≠ 0) (hu1 : u ≠ 1) :
    GetDerivative1 boxC5 (toFn (u, 1/2, 1/2)) 0
      (fun d => if d = 0 then 1 else if d = 1 then 0 else 0) = 1 := by
  rw [GetDerivative1, filter_ne_zero_range3, Finset.prod_insert (by decide),
    Finset.prod_singleton]
  norm_num [FFDBox.lmn, boxC5, toFn, gbd111 u hu0 hu1,
    bern00 (1/2 : ℚ) (by norm_num) (by norm_num)]

theorem boxC5_D1_j1 (u : ℚ) :
    GetDerivative1 boxC5 (toFn (u, 1/2, 1/2)) 1
      (fun d => if d = 0 then 1 else if d = 1 then 0 else 0) = 0 := by
  rw [GetDerivative1]
  norm_num [FFDBox.lmn, boxC5, toFn, gbd001]

theorem boxC5_D1_j2 (u : ℚ) :
    GetDerivative1 boxC5 (toFn (u, 1/2, 1/2)) 2
      (fun d => if d = 0 then 1 else if d = 1 then 0 else 0) = 0 := by
  rw [GetDerivative1]
  norm_num [FFDBox.lmn, boxC5, toFn, gbd001]

theorem boxC5_D3 (u : ℚ) (hu0 : u ≠ 0) (hu1 : u ≠ 1) :
    ∀ dim j, j < 3 → GetDerivative3 boxC5 (toFn (u, 1/2, 1/2)) dim j
      = if dim = 0 ∧ j = 0 then 1 else 0 := by
  intro dim j hj
  rw [GetDerivative3, show boxC5.lDegree = 1 from rfl, show boxC5.mDegree = 0 from rfl,
    show boxC5.nDegree = 0 from rfl]
  simp only [Finset.sum_range_one, Finset.sum_range_succ, Finset.sum_range_zero]
  match j with
  | 0 =>
    rw [boxC5_D1_j0 u hu0 hu1]
    by_cases hd : dim = 0 <;> norm_num [boxC5, hd]
  | 1 =>
    rw [boxC5_D1_j1 u]
    by_cases hd : dim = 0 <;> norm_num [boxC5, hd]
  | 2 =>
    rw [boxC5_D1_j2 u]
    by_cases hd : dim = 0 <;> norm_num [boxC5, hd]

theorem boxC5_F (u : ℚ) (hu0 : u ≠ 0) (hu1 : u ≠ 1) :
    ∀ dim, EvalCartesianCoord boxC5 (toFn (u, 1/2, 1/2)) dim
      = if dim = 0 then u else 0 := by
  intro dim
  rw [EvalCartesianCoord, show boxC5.lDegree = 1 from rfl, show boxC5.mDegree = 0 from rfl,
    show boxC5.nDegree = 0 from rfl]
  simp only [Finset.sum_range_one, Finset.sum_range_succ, Finset.sum_range_zero]
  by_cases hd : dim = 0 <;>
    norm_num [boxC5, hd, toFn, bern11 u hu0 hu1,
      bern00 (1/2 : ℚ) (by norm_num) (by norm_num)]

theorem boxC5_D2 (u : ℚ) (hu0 : u ≠ 0) (hu1 : u ≠ 1) :
    ∀ dim, GetDerivative2 boxC5 (toFn (u, 1/2, 1/2)) dim xyzC5
      = if dim = 0 then 2 * (u - 100) else 0 := by
  intro dim
  rw [getDerivative2_eq, boxC5_F u hu0 hu1 dim]
  by_cases hd : dim = 0 <;> norm_num [xyzC5, hd]

theorem boxC5_grad (u : ℚ) (hu0 : u ≠ 0) (hu1 : u ≠ 1) :
    ∀ j, j < 3 → GetFFDGradient boxC5 (toFn (u, 1/2, 1/2)) xyzC5 j
      = if j = 0 then 2 * (u - 100) else 0 := by
  intro j hj
  simp only [GetFFDGradient]
  simp only [Finset.sum_range_succ, Finset.sum_range_zero]
  rw [boxC5_D2 u hu0 hu1 0, boxC5_D2 u hu0 hu1 1, boxC5_D2 u hu0 hu1 2,
    boxC5_D3 u hu0 hu1 0 j hj, boxC5_D3 u hu0 hu1 1 j hj, boxC5_D3 u hu0 hu1 2 j hj]
  by_cases hjj : j = 0 <;> norm_num [hjj]

theorem boxC5_D4 (u : ℚ) (hu0 : u ≠ 0) (hu1 : u ≠ 1) :
    ∀ a b, a ≤ b → b < 3 →
      GetDerivative4 boxC5 (toFn (u, 1/2, 1/2)) a b
        (fun d => if d = 0 then 1 else if d = 1 then 0 else 0)
      = if a = 0 ∧ b = 0 then -u else 0 := by
  intro a b hab hb
  interval_cases b <;> interval_cases a
  · rw [GetDerivative4, if_pos rfl, filter_ne_zero_range3, Finset.prod_insert (by decide),
      Finset.prod_singleton]
    norm_num [FFDBox.lmn, boxC5, toFn, gbd112 u,
      bern00 (1/2 : ℚ) (by norm_num) (by norm_num)]
  · rw [GetDerivative4, if_neg (by omega), filter_pair01_range3, Finset.prod_singleton]
    norm_num [FFDBox.lmn, boxC5, toFn, gbd001]
  · rw [GetDerivative4, if_pos rfl, filter_ne_one_range3, Finset.prod_insert (by decide),
      Finset.prod_singleton]
    norm_num [FFDBox.lmn, boxC5, toFn, gbd002]
  · rw [GetDerivative4, if_neg (by omega), filter_pair02_range3, Finset.prod_singleton]
    norm_num [FFDBox.lmn, boxC5, toFn, gbd001]
  · rw [GetDerivative4, if_neg (by omega), filter_pair12_range3, Finset.prod_singleton]
    norm_num [FFDBox.lmn, boxC5, toFn, gbd001]
  · rw [GetDerivative4, if_pos rfl, filter_ne_two_range3, Finset.prod_insert (by decide),
      Finset.prod_singleton]
    norm_num [FFDBox.lmn, boxC5, toFn, gbd002]

theorem boxC5_D5 (u : ℚ) (hu0 : u ≠ 0) (hu1 : u ≠ 1) :
    ∀ dim a b, a ≤ b → b < 3 →
      GetDerivative5 boxC5 (toFn (u, 1/2, 1/2)) dim a b
        = if dim = 0 ∧ a = 0 ∧ b = 0 then -u else 0 := by
  intro dim a b hab hb
  rw [GetDerivative5, show boxC5.lDegree = 1 from rfl, show boxC5.mDegree = 0 from rfl,
    show boxC5.nDegree = 0 from rfl]
  simp only [Finset.sum_range_one, Finset.sum_range_succ, Finset.sum_range_zero]
  rw [boxC5_D4 u hu0 hu1 a b hab hb]
  by_cases hd : dim = 0 <;> by_cases hc : a = 0 ∧ b = 0 <;>
    norm_num [boxC5, hd, hc]

theorem boxC5_H (u : ℚ) (hu0 : u ≠ 0) (hu1 : u ≠ 1) :
    ∀ a b, a < 3 → b < 3 →
      GetFFDHessian boxC5 (toFn (u, 1/2, 1/2)) xyzC5 a b
        = if a = 0 ∧ b = 0 then 2 - 2 * (u - 100) * u else 0 := by
  intro a b ha hb
  simp only [GetFFDHessian]
  by_cases hab : a ≤ b
  · rw [if_pos hab]
    simp only [Finset.sum_range_succ, Finset.sum_range_zero]
    rw [boxC5_D3 u hu0 hu1 0 a ha, boxC5_D3 u hu0 hu1 1 a ha, boxC5_D3 u hu0 hu1 2 a ha,
      boxC5_D3 u hu0 hu1 0 b hb, boxC5_D3 u hu0 hu1 1 b hb, boxC5_D3 u hu0 hu1 2 b hb,
      boxC5_D2 u hu0 hu1 0, boxC5_D2 u hu0 hu1 1, boxC5_D2 u hu0 hu1 2,
      boxC5_D5 u hu0 hu1 0 a b hab hb, boxC5_D5 u hu0 hu1 1 a b hab hb,
      boxC5_D5 u hu0 hu1 2 a b hab hb]
    by_cases ha0 : a = 0 <;> by_cases hb0 : b = 0 <;> norm_num [ha0, hb0] <;> ring
  · rw [if_neg hab]
    have hba : b ≤ a := le_of_not_le hab
    simp only [Finset.sum_range_succ, Finset.sum_range_zero]
    rw [boxC5_D3 u hu0 hu1 0 a ha, boxC5_D3 u hu0 hu1 1 a ha, boxC5_D3 u hu0 hu1 2 a ha,
      boxC5_D3 u hu0 hu1 0 b hb, boxC5_D3 u hu0 hu1 1 b hb, boxC5_D3 u hu0 hu1 2 b hb,
      boxC5_D2 u hu0 hu1 0, boxC5_D2 u hu0 hu1 1, boxC5_D2 u hu0 hu1 2,
      boxC5_D5 u hu0 hu1 0 b a hba ha, boxC5_D5 u hu0 hu1 1 b a hba ha,
      boxC5_D5 u hu0 hu1 2 b a hba ha]
    have ha0 : ¬(a = 0) := by omega
    norm_num [ha0]

theorem ffdNewtonStep_boxC5 (u : ℚ) (hu0 : u ≠ 0) (hu1 : u ≠ 1) :
    ffdNewtonStep boxC5 xyzC5 (u, 1/2, 1/2) = (2 * (100 - u), 0, 0) := by
  have hH := boxC5_H u hu0 hu1
  have hg := boxC5_grad u hu0 hu1
  simp only [ffdNewtonStep]
  rw [hH 0 0 (by omega) (by omega), hH 0 1 (by omega) (by omega),
    hH 0 2 (by omega) (by omega), hH 1 0 (by omega) (by omega),
    hH 1 1 (by omega) (by omega), hH 1 2 (by omega) (by omega),
    hH 2 0 (by omega) (by omega), hH 2 1 (by omega) (by omega),
    hH 2 2 (by omega) (by omega),
    hg 0 (by omega), hg 1 (by omega), hg 2 (by omega)]
  norm_num
  ring

theorem ffdNormSq_boxC5 (u : ℚ) (hu0 : u ≠ 0) (hu1 : u ≠ 1) :
    ffdNormSq boxC5 xyzC5 (u, 1/2, 1/2) = 4 * (100 - u) ^ 2 := by
  simp only [ffdNormSq, ffdNewtonStep_boxC5 u hu0 hu1]
  ring

theorem ffdStepA (iter : ℕ) (sor m : ℚ) (k r R P : ℕ) (dg : Bool)
    (hk : k + 1 ≠ 500) (hk2 : k + 1 < 65536) :
    ffdIterStep boxC5 xyzC5 (1/1000) 2 (fun _ => 1/2) iter
        ⟨(1/2, 1/2, 1/2), sor, m, k, r, R, dg, P⟩
      = .inl ⟨(1/2, 1/2, 1/2), 1/10, min 39601 m, k + 1, r + 3, R + 1, dg, P⟩ := by
  have hstep := ffdNewtonStep_boxC5 (1/2 : ℚ) (by norm_num) (by norm_num)
  have hnorm := ffdNormSq_boxC5 (1/2 : ℚ) (by norm_num) (by norm_num)
  simp only [ffdIterStep]
  rw [Nat.mod_eq_of_lt hk2, if_neg hk, hstep, hnorm]
  norm_num

theorem ffdStepPrint (iter : ℕ) (m : ℚ) (r R P : ℕ) (dg : Bool) :
    ffdIterStep boxC5 xyzC5 (1/1000) 2 (fun _ => 1/2) iter
        ⟨(1/2, 1/2, 1/2), 1/10, m, 499, r, R, dg, P⟩
      = .inl ⟨(102/5, 1/2, 1/2), 1/10, min 39601 m, 500, r, R, true, P + 1⟩ := by
  have hstep := ffdNewtonStep_boxC5 (1/2 : ℚ) (by norm_num) (by norm_num)
  have hnorm := ffdNormSq_boxC5 (1/2 : ℚ) (by norm_num) (by norm_num)
  simp only [ffdIterStep, ffdSORUpdate]
  rw [hstep, hnorm]
  norm_num

theorem ffdStepB (iter : ℕ) (sor m : ℚ) (k r R P : ℕ) (dg : Bool)
    (hk : k + 1 ≠ 500) (hk2 : k + 1 < 65536) :
    ffdIterStep boxC5 xyzC5 (1/1000) 2 (fun _ => 1/2) iter
        ⟨(102/5, 1/2, 1/2), sor, m, k, r, R, dg, P⟩
      = .inl ⟨(1/2, 1/2, 1/2), 1/10, min (633616/25) m, k + 1, r + 3, R + 1, dg, P⟩ := by
  have hstep := ffdNewtonStep_boxC5 (102/5 : ℚ) (by norm_num) (by norm_num)
  have hnorm := ffdNormSq_boxC5 (102/5 : ℚ) (by norm_num) (by norm_num)
  simp only [ffdIterStep]
  rw [Nat.mod_eq_of_lt hk2, if_neg hk, hstep, hnorm]
  norm_num
  intro hx
  rw [abs_lt] at hx
  norm_num at hx

/-- The `SOR_Factor` after `n` consecutive random restarts from `sor`. -/
def ffdSorA : ℕ → ℚ → ℚ
  | 0, sor => sor
  | n + 1, _ => ffdSorA n (1/10)

/-- The squared `MinNormError` after `n` consecutive stagnations at the point
(1/2, 1/2, 1/2), whose squared step norm is 39601. -/
def ffdMinA : ℕ → ℚ → ℚ
  | 0, m => m
  | n + 1, m => ffdMinA n (min 39601 m)

theorem ffdSorA_pos (n : ℕ) (sor : ℚ) (hn : n ≠ 0) : ffdSorA n sor = 1/10 := by
  induction n generalizing sor with
  | zero => omega
  | succ n ih =>
    by_cases h : n = 0
    · subst h
      rfl
    · rw [ffdSorA, ih (1/10) h]

theorem ffdLoopA (n : ℕ) : ∀ (fuel iter : ℕ) (sor m : ℚ) (k r R P : ℕ) (dg : Bool),
    (∀ jj, jj < n → k + jj + 1 ≠ 500) → k + n < 65536 →
    ffdLoop boxC5 xyzC5 (1/1000) 2 (fun _ => 1/2) (n + fuel) iter
        ⟨(1/2, 1/2, 1/2), sor, m, k, r, R, dg, P⟩
      = ffdLoop boxC5 xyzC5 (1/1000) 2 (fun _ => 1/2) fuel (iter + n)
          ⟨(1/2, 1/2, 1/2), ffdSorA n sor, ffdMinA n m, k + n, r + 3 * n, R + n, dg, P⟩ := by
  induction n with
  | zero =>
    intro fuel iter sor m k r R P dg hjj hb
    simp [ffdSorA, ffdMinA]
  | succ n ih =>
    intro fuel iter sor m k r R P dg hjj hb
    have hk1 : k + 1 ≠ 500 := by
      have := hjj 0 (by omega)
      omega
    have hstep := ffdStepA iter sor m k r R P dg hk1 (by omega)
    have hL : n + 1 + fuel = (n + fuel) + 1 := by omega
    rw [hL, ffdLoop_inl boxC5 xyzC5 (1/1000) 2 (fun _ => 1/2) (n + fuel) iter _ _ hstep]
    have hrec := ih fuel (iter + 1) (1/10) (min 39601 m) (k + 1) (r + 3) (R + 1) P dg
      (fun jj hjj2 => by
        have := hjj (jj + 1) (by omega)
        omega)
      (by omega)
    rw [hrec]
    simp only [ffdSorA, ffdMinA]
    have e1 : iter + 1 + n = iter + (n + 1) := by omega
    have e2 : k + 1 + n = k + (n + 1) := by omega
    have e3 : r + 3 + 3 * n = r + 3 * (n + 1) := by omega
    have e4 : R + 1 + n = R + (n + 1) := by omega
    rw [e1, e2, e3, e4]

/-- C5, counterexample: on the degree-(1,0,0) box `boxC5` with target point
(100, 0, 0), guess (1/2, 1/2, 1/2), tolerance 1/1000, `nFFD_Iter = 2` and a
random stream that always draws 1/2, every outer iteration stagnates (the step
norm stays far above 1.8) and the loop performs 999 random restarts — far more
than the claimed cap of 500.  `RandonCounter == 500` suppresses the restart only
on exactly the 500th stagnation (where the diagnostic is printed); afterwards
the counter moves past 500 and restarting resumes until the
`nFFD_Iter * 500` iteration budget runs out. -/
theorem C5_counterexample :
    (GetParametricCoord_Iterative boxC5 xyzC5 (1/2, 1/2, 1/2) (1/1000) 2
        (fun _ => 1/2)).state.restarts = 999 ∧
    500 < (GetParametricCoord_Iterative boxC5 xyzC5 (1/2, 1/2, 1/2) (1/1000) 2
        (fun _ => 1/2)).state.restarts ∧
    (GetParametricCoord_Iterative boxC5 xyzC5 (1/2, 1/2, 1/2) (1/1000) 2
        (fun _ => 1/2)).converged = false ∧
    (GetParametricCoord_Iterative boxC5 xyzC5 (1/2, 1/2, 1/2) (1/1000) 2
        (fun _ => 1/2)).state.diag = true ∧
    (GetParametricCoord_Iterative boxC5 xyzC5 (1/2, 1/2, 1/2) (1/1000) 2
        (fun _ => 1/2)).iters = 2 * 500 := by
  have h1 : ffdLoop boxC5 xyzC5 (1/1000) 2 (fun _ => 1/2) 1000 0
      ⟨(1/2, 1/2, 1/2), 1, 10 ^ 12, 0, 0, 0, false, 0⟩
    = ffdLoop boxC5 xyzC5 (1/1000) 2 (fun _ => 1/2) 501 499
      ⟨(1/2, 1/2, 1/2), ffdSorA 499 1, ffdMinA 499 (10 ^ 12), 499, 1497, 499, false, 0⟩ :=
    ffdLoopA 499 501 0 1 (10 ^ 12) 0 0 0 0 false (fun jj hjj => by omega) (by omega)
  rw [ffdSorA_pos 499 1 (by omega)] at h1
  have h2 : ffdLoop boxC5 xyzC5 (1/1000) 2 (fun _ => 1/2) 501 499
      ⟨(1/2, 1/2, 1/2), 1/10, ffdMinA 499 (10 ^ 12), 499, 1497, 499, false, 0⟩
    = ffdLoop boxC5 xyzC5 (1/1000) 2 (fun _ => 1/2) 500 500
      ⟨(102/5, 1/2, 1/2), 1/10, min 39601 (ffdMinA 499 (10 ^ 12)), 500, 1497, 499,
        true, 1⟩ :=
    ffdLoop_inl boxC5 xyzC5 (1/1000) 2 (fun _ => 1/2) 500 499 _ _
      (ffdStepPrint 499 (ffdMinA 499 (10 ^ 12)) 1497 499 0 false)
  have h3 : ffdLoop boxC5 xyzC5 (1/1000) 2 (fun _ => 1/2) 500 500
      ⟨(102/5, 1/2, 1/2), 1/10, min 39601 (ffdMinA 499 (10 ^ 12)), 500, 1497, 499,
        true, 1⟩
    = ffdLoop boxC5 xyzC5 (1/1000) 2 (fun _ => 1/2) 499 501
      ⟨(1/2, 1/2, 1/2), 1/10, min (633616/25) (min 39601 (ffdMinA 499 (10 ^ 12))),
        501, 1500, 500, true, 1⟩ :=
    ffdLoop_inl boxC5 xyzC5 (1/1000) 2 (fun _ => 1/2) 499 500 _ _
      (ffdStepB 500 (1/10) (min 39601 (ffdMinA 499 (10 ^ 12))) 500 1497 499 1 true
        (by omega) (by omega))
  have h4 : ffdLoop boxC5 xyzC5 (1/1000) 2 (fun _ => 1/2) 499 501
      ⟨(1/2, 1/2, 1/2), 1/10, min (633616/25) (min 39601 (ffdMinA 499 (10 ^ 12))),
        501, 1500, 500, true, 1⟩
    = ffdLoop boxC5 xyzC5 (1/1000) 2 (fun _ => 1/2) 0 1000
      ⟨(1/2, 1/2, 1/2), ffdSorA 499 (1/10),
        ffdMinA 499 (min (633616/25) (min 39601 (ffdMinA 499 (10 ^ 12)))),
        1000, 2997, 999, true, 1⟩ :=
    ffdLoopA 499 0 501 (1/10)
      (min (633616/25) (min 39601 (ffdMinA 499 (10 ^ 12)))) 501 1500 500 1 true
      (fun jj hjj => by omega) (by omega)
  rw [ffdSorA_pos 499 (1/10) (by omega)] at h4
  have h5 : ffdLoop boxC5 xyzC5 (1/1000) 2 (fun _ => 1/2) 0 1000
      ⟨(1/2, 1/2, 1/2), 1/10,
        ffdMinA 499 (min (633616/25) (min 39601 (ffdMinA 499 (10 ^ 12)))),
        1000, 2997, 999, true, 1⟩
    = ⟨(1/2, 1/2, 1/2), 1000, false,
        ⟨(1/2, 1/2, 1/2), 1/10,
          ffdMinA 499 (min (633616/25) (min 39601 (ffdMinA 499 (10 ^ 12)))),
          1000, 2997, 999, true, 1⟩⟩ := rfl
  have hrun : GetParametricCoord_Iterative boxC5 xyzC5 (1/2, 1/2, 1/2) (1/1000) 2
      (fun _ => 1/2)
    = ⟨(1/2, 1/2, 1/2), 1000, false,
        ⟨(1/2, 1/2, 1/2), 1/10,
          ffdMinA 499 (min (633616/25) (min 39601 (ffdMinA 499 (10 ^ 12)))),
          1000, 2997, 999, true, 1⟩⟩ := by
    rw [GetParametricCoord_Iterative]
    exact ((h1.trans h2).trans h3).trans (h4.trans h5)
  rw [hrun]
  exact ⟨rfl, by norm_num, rfl, rfl, rfl⟩
